import Mathlib

/-!
Verification of the Intelligent-Traffic-System backend: a shallow embedding
of the decision-layer components (fine calculation, driver scoring, zone
geometry, fuzzy signal timing, parking dwell tracking, the four-way junction
controller, and the lock-protected frame state) together with theorems
settling the specification claims about them.

Python floats that carry times, speeds and money are modelled as exact
rationals; Python `int()` truncation is `Int.tdiv`; Python dicts that the
code iterates over are association lists; the wall clock is passed in as an
explicit parameter wherever the source calls `time.time()`.
-/

set_option maxRecDepth 1000000

-- ===========================================================================
-- DEFINITIONS
-- ===========================================================================

-- ---------------------------------------------------------------------------
-- app/services/fine_service.py
-- ---------------------------------------------------------------------------

/-- Python's `str.lower()` (kernel-computable form of `String.toLower`). -/
def pyLower (s : String) : String := ⟨s.data.map Char.toLower⟩

namespace FineService

/-- `BASE_PENALTIES` dict from fine_service.py, as the lookup performed by
`BASE_PENALTIES.get(key, BASE_PENALTIES['default'])` (default 1000). -/
def BASE_PENALTIES (key : String) : Int :=
  if key = "no_parking" then 1000
  else if key = "handicap_zone" then 2500
  else if key = "fire_lane" then 3000
  else if key = "bus_stop" then 1500
  else if key = "school_zone" then 2000
  else 1000

/-- Duration rate: LKR per second. -/
def DURATION_RATE : Int := 5

/-- Traffic impact multiplier: LKR per affected vehicle. -/
def TRAFFIC_MULTIPLIER : Int := 50

/-- Container for the dynamic fine calculation result. -/
structure FineBreakdown where
  violation_id : Int
  zone_type : String
  duration_seconds : Int
  traffic_impact : Int
  base_penalty : Int
  duration_penalty : Int
  impact_penalty : Int
  total_fine : Int
deriving DecidableEq, Repr

/-- `calculate_dynamic_fine` from fine_service.py:
`Fine = Base + (Duration × 5) + (Traffic_Impact × 50)`. -/
def calculate_dynamic_fine (violation_type : String) (duration_seconds : Int)
    (vehicle_count_in_frame : Int) (violation_id : Int) : FineBreakdown :=
  let base_penalty := BASE_PENALTIES (pyLower violation_type)
  let duration_penalty := duration_seconds * DURATION_RATE
  let impact_penalty := vehicle_count_in_frame * TRAFFIC_MULTIPLIER
  let total_fine := base_penalty + duration_penalty + impact_penalty
  { violation_id := violation_id
    zone_type := violation_type
    duration_seconds := duration_seconds
    traffic_impact := vehicle_count_in_frame
    base_penalty := base_penalty
    duration_penalty := duration_penalty
    impact_penalty := impact_penalty
    total_fine := total_fine }

end FineService

-- ---------------------------------------------------------------------------
-- app/scoring/scoring.py
-- ---------------------------------------------------------------------------

namespace Scoring

/-- `ViolationType` enum from scoring.py. -/
inductive ViolationType
  | parking_no_parking
  | parking_no_stopping
  | parking_overtime
  | parking_handicap
  | parking_loading
  | speeding
  | red_light
  | wrong_way
  | lane_violation
  | reckless_driving
deriving DecidableEq, Repr

/-- One entry of the `VIOLATION_PENALTIES` table. -/
structure Penalty where
  points : Int
  fine : ℚ
  severity : String
deriving DecidableEq, Repr

/-- `VIOLATION_PENALTIES` table from scoring.py.  The enum is fully covered,
so the `.get(violation_type, {points:5, fine:50})` default branch of
`apply_violation` is unreachable and the lookup is this total function. -/
def VIOLATION_PENALTIES : ViolationType → Penalty
  | .parking_no_parking => ⟨10, 100, "medium"⟩
  | .parking_no_stopping => ⟨10, 100, "medium"⟩
  | .parking_overtime => ⟨5, 50, "low"⟩
  | .parking_handicap => ⟨10, 200, "high"⟩
  | .parking_loading => ⟨10, 75, "low"⟩
  | .speeding => ⟨8, 150, "medium"⟩
  | .red_light => ⟨25, 300, "high"⟩
  | .wrong_way => ⟨20, 500, "critical"⟩
  | .lane_violation => ⟨5, 80, "low"⟩
  | .reckless_driving => ⟨25, 1000, "critical"⟩

/-- `ViolationRecord` dataclass (timestamps and free-text fields that only
echo the inputs are carried as given; the wall-clock timestamp is a
parameter). -/
structure ViolationRecord where
  violation_id : String
  driver_id : String
  violation_type : ViolationType
  timestamp : ℚ
  points_deducted : Int
  fine_amount : ℚ
deriving DecidableEq, Repr

/-- `DriverScore` dataclass. -/
structure DriverScore where
  driver_id : String
  current_score : Int
  total_violations : Int
  total_fines : ℚ
  violation_history : List ViolationRecord
deriving DecidableEq, Repr

/-- `DriverScore.risk_level` property. -/
def DriverScore.risk_level (d : DriverScore) : String :=
  if d.current_score ≥ 90 then "excellent"
  else if d.current_score ≥ 70 then "good"
  else if d.current_score ≥ 50 then "fair"
  else if d.current_score ≥ 30 then "poor"
  else "critical"

/-- `DriverScore.apply_violation`: look up the penalty, clamp the score at 0,
add the fine, bump the violation count, append a record and cap the
in-memory history at the last 100 entries. -/
def DriverScore.apply_violation (d : DriverScore) (violation_type : ViolationType)
    (violation_id : String) (now : ℚ) : DriverScore × ViolationRecord :=
  let penalty := VIOLATION_PENALTIES violation_type
  let record : ViolationRecord :=
    { violation_id := violation_id
      driver_id := d.driver_id
      violation_type := violation_type
      timestamp := now
      points_deducted := penalty.points
      fine_amount := penalty.fine }
  let history := d.violation_history ++ [record]
  let history := if history.length > 100 then history.drop (history.length - 100) else history
  ({ driver_id := d.driver_id
     current_score := max 0 (d.current_score - penalty.points)
     total_violations := d.total_violations + 1
     total_fines := d.total_fines + penalty.fine
     violation_history := history }, record)

/-- `ScoringEngine` state: per-driver scores plus the violation counter
(persistence to SQLite is an external side effect outside this model). -/
structure ScoringEngine where
  initial_score : Int
  drivers : List (String × DriverScore)
  violation_counter : Int
deriving DecidableEq, Repr

/-- A fresh engine (settings.initial_driver_score = 100). -/
def ScoringEngine.init : ScoringEngine := ⟨100, [], 0⟩

/-- `ScoringEngine.get_or_create_driver`. -/
def ScoringEngine.get_or_create_driver (e : ScoringEngine) (driver_id : String) :
    ScoringEngine × DriverScore :=
  match e.drivers.lookup driver_id with
  | some d => (e, d)
  | none =>
    let d : DriverScore := ⟨driver_id, e.initial_score, 0, 0, []⟩
    (⟨e.initial_score, e.drivers ++ [(driver_id, d)], e.violation_counter⟩, d)

/-- Replace (or insert) a driver entry in the engine map. -/
def ScoringEngine.setDriver (e : ScoringEngine) (driver_id : String) (d : DriverScore) :
    ScoringEngine :=
  ⟨e.initial_score,
   if (e.drivers.lookup driver_id).isSome
     then e.drivers.map (fun p => if p.1 = driver_id then (driver_id, d) else p)
     else e.drivers ++ [(driver_id, d)],
   e.violation_counter⟩

/-- `ScoringEngine.record_violation`: get-or-create the driver, bump the
violation counter, apply the violation to the driver and store it back.
The generated violation id embeds the wall clock and the counter. -/
def ScoringEngine.record_violation (e : ScoringEngine) (driver_id : String)
    (violation_type : ViolationType) (now : ℚ) :
    ScoringEngine × DriverScore × ViolationRecord :=
  let g := e.get_or_create_driver driver_id
  let counter := g.1.violation_counter + 1
  let e1 : ScoringEngine := ⟨g.1.initial_score, g.1.drivers, counter⟩
  let violation_id := "VIO-" ++ toString counter
  let a := g.2.apply_violation violation_type violation_id now
  (e1.setDriver driver_id a.1, a.1, a.2)

/-- Iterated application of one fixed violation type to a driver
(the driver component only). -/
def applyViolationIter (vt : ViolationType) (d : DriverScore) (n : ℕ) : DriverScore :=
  match n with
  | 0 => d
  | n + 1 => ((applyViolationIter vt d n).apply_violation vt "VR" 0).1

/-- A fresh driver as produced by `get_or_create_driver` on a new id. -/
def freshDriver (driver_id : String) : DriverScore := ⟨driver_id, 100, 0, 0, []⟩

end Scoring

-- ---------------------------------------------------------------------------
-- Zone geometry (cv2.pointPolygonTest / fillPoly rasterization as used by
-- parking_detector.py and yolo_detector.py)
-- ---------------------------------------------------------------------------

namespace Geometry

/-- Even-odd ray-casting membership test for an integer pixel in a polygon:
the pixel grid embedding of `cv2.pointPolygonTest(poly, point, False) >= 0`.
For each edge that straddles the horizontal through `point`, the crossing
test `x < xj + (y - yj)(xi - xj)/(yi - yj)` is evaluated in exact integer
arithmetic by multiplying through by `yi - yj` (nonzero on a straddling
edge, its sign fixed by the straddle direction). -/
def point_in_polygon (point : Int × Int) (polygon : List (Int × Int)) : Bool :=
  let edges := polygon.zip (polygon.rotate 1)
  edges.foldl
    (fun inside e =>
      let xi := e.1.1
      let yi := e.1.2
      let xj := e.2.1
      let yj := e.2.2
      let straddles := (decide (point.2 < yi)) != (decide (point.2 < yj))
      let d := yi - yj
      let lhs := (point.1 - xj) * d
      let rhs := (point.2 - yj) * (xi - xj)
      if straddles && (if 0 < d then lhs < rhs else rhs < lhs) then !inside else inside)
    false

end Geometry

-- ---------------------------------------------------------------------------
-- app/parking/parking_detector.py
-- ---------------------------------------------------------------------------

namespace ParkDet

/-- `ZoneType` enum. -/
inductive ZoneType
  | no_parking
  | no_stopping
  | limited
  | handicap
  | loading
deriving DecidableEq, Repr

/-- `ParkingZone` dataclass (the BGR display `color` is irrelevant to the
logic and omitted). -/
structure ParkingZone where
  zone_id : String
  name : String
  polygon : List (Int × Int)
  zone_type : ZoneType
  max_duration_sec : ℚ
  active : Bool
deriving DecidableEq, Repr

/-- `ParkingZone.contains_point`. -/
def ParkingZone.contains_point (z : ParkingZone) (point : Int × Int) : Bool :=
  Geometry.point_in_polygon point z.polygon

/-- `ParkingZone.get_overlap_ratio`: rasterize the zone polygon over the
bounding-box grid (`cv2.fillPoly` on a `mask_h × mask_w` mask), intersect
with the all-ones bbox mask, and divide the nonzero count by the bbox area.
Degenerate boxes return 0.0 before any division. -/
def ParkingZone.get_overlap_ratio (z : ParkingZone) (bbox : Int × Int × Int × Int) : ℚ :=
  let x1 := bbox.1
  let y1 := bbox.2.1
  let x2 := bbox.2.2.1
  let y2 := bbox.2.2.2
  let mask_w := x2 - x1
  let mask_h := y2 - y1
  if mask_w ≤ 0 ∨ mask_h ≤ 0 then 0
  else
    let translated_poly := z.polygon.map (fun p => (p.1 - x1, p.2 - y1))
    let pixels := (List.range mask_h.toNat).flatMap
      (fun j => (List.range mask_w.toNat).map (fun i => ((i : Int), (j : Int))))
    let intersection_area := pixels.countP (fun p => Geometry.point_in_polygon p translated_poly)
    let bbox_area := mask_w * mask_h
    (intersection_area : ℚ) / (bbox_area : ℚ)

/-- The slice of `yolo_detector.Detection` that parking detection consumes. -/
structure Detection where
  track_id : Int
  class_name : String
  bbox : Int × Int × Int × Int
  centroid : Int × Int
  speed_kmh : ℚ
  plate_text : Option String
deriving DecidableEq, Repr

/-- `ParkingZone.contains_centroid`. -/
def ParkingZone.contains_centroid (z : ParkingZone) (det : Detection) : Bool :=
  z.contains_point det.centroid

/-- `TrackedVehicle` dataclass (one dwell record per `(track, zone)` key). -/
structure TrackedVehicle where
  track_id : Int
  zone_id : String
  first_seen : ℚ
  last_seen : ℚ
  class_name : String
  centroid_history : List (Int × Int)
deriving DecidableEq, Repr

/-- `TrackedVehicle.dwell_time`. -/
def TrackedVehicle.dwell_time (t : TrackedVehicle) : ℚ := t.last_seen - t.first_seen

/-- `TrackedVehicle.is_stationary`: fewer than 3 history points counts as
stationary; otherwise the average per-update Euclidean movement must be
below 20 px.  `np.sqrt` is the numeric library's square root; the model is
parametric in it (`sqrtFn` receives the squared distance), and every theorem
below holds for every choice of `sqrtFn`. -/
def TrackedVehicle.is_stationary (sqrtFn : Int → ℚ) (t : TrackedVehicle) : Bool :=
  if t.centroid_history.length < 3 then true
  else
    let steps := t.centroid_history.zip (t.centroid_history.drop 1)
    let total_movement := (steps.map
      (fun s => sqrtFn ((s.2.1 - s.1.1) ^ 2 + (s.2.2 - s.1.2) ^ 2))).sum
    let avg_movement := total_movement / ((t.centroid_history.length : ℚ) - 1)
    avg_movement < 20

/-- `ParkingViolation` dataclass (`snapshot_path` is an external file-system
side effect and omitted). -/
structure ParkingViolation where
  violation_id : String
  track_id : Int
  zone_id : String
  zone_name : String
  zone_type : ZoneType
  start_time : ℚ
  end_time : Option ℚ
  duration_sec : ℚ
  license_plate : Option String
  fine_amount : ℚ
  status : String
deriving DecidableEq, Repr

/-- `ParkingDetector._calculate_fine` zone-type fine map. -/
def calculate_fine : ZoneType → ℚ
  | .no_parking => 50
  | .no_stopping => 100
  | .limited => 30
  | .handicap => 200
  | .loading => 75

/-- `ParkingDetector` state.  Keys `"{track_id}_{zone_id}"` are modelled as
`(track_id, zone_id)` pairs; the insertion-ordered dicts are association
lists. -/
structure DetectorState where
  zones : List (String × ParkingZone)
  tracked_vehicles : List ((Int × String) × TrackedVehicle)
  violations : List ((Int × String) × ParkingViolation)
  min_overlap : ℚ
  violation_counter : Int
deriving DecidableEq, Repr

/-- A fresh detector with the given zones (default `min_overlap = 0.3`). -/
def DetectorState.init (zones : List (String × ParkingZone)) : DetectorState :=
  ⟨zones, [], [], 3 / 10, 0⟩

/-- Replace the value stored at `k` in an association list (in place;
`dict[k] = v` on an existing key). -/
def updateAssoc {α β : Type} [DecidableEq α] : List (α × β) → α → β → List (α × β)
  | [], _, _ => []
  | p :: rest, k, v => if p.1 = k then (k, v) :: updateAssoc rest k v
      else p :: updateAssoc rest k v

/-- Remove the entry stored at `k` in an association list (`del dict[k]`). -/
def eraseAssoc {α β : Type} [DecidableEq α] : List (α × β) → α → List (α × β)
  | [], _ => []
  | p :: rest, k => if p.1 = k then eraseAssoc rest k else p :: eraseAssoc rest k

/-- Accumulator for one `process_detections` call: the evolving state, the
new violations returned, and the `active_keys` set. -/
structure Acc where
  st : DetectorState
  new_violations : List ParkingViolation
  active_keys : List (Int × String)
deriving Repr

/-- The body of the per-`(detection, zone)` loop of `process_detections`. -/
def stepZone (sqrtFn : Int → ℚ) (current_time : ℚ) (det : Detection)
    (zid : String) (zone : ParkingZone) (acc : Acc) : Acc :=
  if ¬ zone.active then acc
  else
    let in_zone := zone.contains_centroid det ||
      decide (acc.st.min_overlap ≤ zone.get_overlap_ratio det.bbox)
    if ¬ in_zone then acc
    else
      let key := (det.track_id, zid)
      let active_keys := if key ∈ acc.active_keys then acc.active_keys
        else acc.active_keys ++ [key]
      match acc.st.tracked_vehicles.lookup key with
      | some tracked =>
        let history := tracked.centroid_history ++ [det.centroid]
        let history := if history.length > 30 then history.drop (history.length - 30)
          else history
        let tracked : TrackedVehicle :=
          { tracked with last_seen := current_time, centroid_history := history }
        let st := { acc.st with
          tracked_vehicles := updateAssoc acc.st.tracked_vehicles key tracked }
        if tracked.is_stationary sqrtFn && decide (zone.max_duration_sec < tracked.dwell_time)
        then
          match st.violations.lookup key with
          | none =>
            let counter := st.violation_counter + 1
            let violation : ParkingViolation :=
              { violation_id := "VIO-" ++ toString counter
                track_id := det.track_id
                zone_id := zid
                zone_name := zone.name
                zone_type := zone.zone_type
                start_time := tracked.first_seen
                end_time := none
                duration_sec := tracked.dwell_time
                license_plate := none
                fine_amount := calculate_fine zone.zone_type
                status := "active" }
            let st2 := { st with violations := st.violations ++ [(key, violation)], violation_counter := counter }
            { st := st2
              new_violations := acc.new_violations ++ [violation]
              active_keys := active_keys }
          | some v =>
            let v2 := { v with duration_sec := tracked.dwell_time }
            let st2 := { st with violations := updateAssoc st.violations key v2 }
            { st := st2
              new_violations := acc.new_violations
              active_keys := active_keys }
        else { st := st, new_violations := acc.new_violations, active_keys := active_keys }
      | none =>
        let tracked : TrackedVehicle :=
          { track_id := det.track_id
            zone_id := zid
            first_seen := current_time
            last_seen := current_time
            class_name := det.class_name
            centroid_history := [det.centroid] }
        { st := { acc.st with
            tracked_vehicles := acc.st.tracked_vehicles ++ [(key, tracked)] }
          new_violations := acc.new_violations
          active_keys := active_keys }

/-- Inner loop over the zone dict for one detection. -/
def stepDetection (sqrtFn : Int → ℚ) (current_time : ℚ) (det : Detection)
    (zones : List (String × ParkingZone)) (acc : Acc) : Acc :=
  match zones with
  | [] => acc
  | (zid, zone) :: rest =>
    stepDetection sqrtFn current_time det rest (stepZone sqrtFn current_time det zid zone acc)

/-- Outer loop over the detections (detections without a valid track id are
skipped). -/
def stepDetections (sqrtFn : Int → ℚ) (current_time : ℚ)
    (dets : List Detection) (zones : List (String × ParkingZone)) (acc : Acc) : Acc :=
  match dets with
  | [] => acc
  | det :: rest =>
    let acc := if det.track_id < 0 then acc
      else stepDetection sqrtFn current_time det zones acc
    stepDetections sqrtFn current_time rest zones acc

/-- Stale cleanup: every tracked key that was not active this frame and has
not been seen for more than 2 s finalizes its violation (end time, status
"resolved") and is removed. -/
def staleCleanup (current_time : ℚ) (active_keys : List (Int × String))
    (stale : List ((Int × String) × TrackedVehicle)) (st : DetectorState) : DetectorState :=
  match stale with
  | [] => st
  | (key, tracked) :: rest =>
    let st :=
      if key ∈ active_keys then st
      else if ¬ (2 < current_time - tracked.last_seen) then st
      else
        let st :=
          match st.violations.lookup key with
          | some v =>
            let v2 := { v with end_time := some tracked.last_seen, status := "resolved" }
            { st with violations := updateAssoc st.violations key v2 }
          | none => st
        { st with tracked_vehicles := eraseAssoc st.tracked_vehicles key }
    staleCleanup current_time active_keys rest st

/-- `ParkingDetector.process_detections`. -/
def process_detections (sqrtFn : Int → ℚ) (st : DetectorState)
    (detections : List Detection) (current_time : ℚ) :
    DetectorState × List ParkingViolation :=
  let acc := stepDetections sqrtFn current_time detections st.zones
    ⟨st, [], []⟩
  let st := staleCleanup current_time acc.active_keys acc.st.tracked_vehicles acc.st
  (st, acc.new_violations)

/-- A sequence of `process_detections` calls (detections and wall-clock time
per call), threading the detector state. -/
def runCalls (sqrtFn : Int → ℚ) (st : DetectorState) :
    List (List Detection × ℚ) → DetectorState
  | [] => st
  | (dets, t) :: rest => runCalls sqrtFn (process_detections sqrtFn st dets t).1 rest

/-- The C6 detection: track 1, centroid fixed inside the sample zone. -/
def c6Det : Detection :=
  { track_id := 1, class_name := "car", bbox := (40, 40, 60, 60), centroid := (50, 50),
    speed_kmh := 0, plate_text := none }

/-- A sample no-parking zone over a 100×100 rectangle (used to instantiate
theorems on concrete inputs). -/

def sampleZone : ParkingZone :=
  { zone_id := "z1"
    name := "No Parking Zone 1"
    polygon := [(0, 0), (100, 0), (100, 100), (0, 100)]
    zone_type := .no_parking
    max_duration_sec := 0
    active := true }

/-- The C6 trace prefix: enter at t=0, cross the threshold at t=2, resolve
by stale cleanup at t=5 (the vehicle absent). -/
def c6RunPrefix : DetectorState :=
  runCalls (fun _ => 0) (DetectorState.init [("z1", sampleZone)])
    [([c6Det], 0), ([c6Det], 2), ([], 5)]

/-- The full C6 trace: after the resolution the same (track, zone) re-enters
at t=10 and re-crosses the threshold at t=11. -/
def c6Run : DetectorState :=
  runCalls (fun _ => 0) (DetectorState.init [("z1", sampleZone)])
    [([c6Det], 0), ([c6Det], 2), ([], 5), ([c6Det], 10), ([c6Det], 11)]

end ParkDet

-- ---------------------------------------------------------------------------
-- app/fuzzy/traffic_controller.py : FuzzyTrafficController
-- ---------------------------------------------------------------------------

namespace Fuzzy

/-- Exact fraction arithmetic used to embed the scikit-fuzzy float pipeline.
Fractions are kept unnormalized (the kernel cannot reduce `Rat`, whose
normalization runs `Nat.gcd`); all constructions below keep denominators
positive, which the comparison helpers assume. -/
structure Frac where
  num : Int
  den : Int
deriving DecidableEq, Repr

/-- Addition of fractions. -/
def Frac.add (a b : Frac) : Frac := ⟨a.num * b.den + b.num * a.den, a.den * b.den⟩

/-- Multiplication of fractions. -/
def Frac.mul (a b : Frac) : Frac := ⟨a.num * b.num, a.den * b.den⟩

/-- Division of fractions (only ever used with a positive divisor). -/
def Frac.div (a b : Frac) : Frac := ⟨a.num * b.den, a.den * b.num⟩

/-- Comparison by cross-multiplication (valid for positive denominators). -/
def Frac.le (a b : Frac) : Bool := a.num * b.den ≤ b.num * a.den

/-- `min`, as `np.fmin` clipping uses it. -/
def Frac.fmin (a b : Frac) : Frac := if a.le b then a else b

/-- `max`, as `np.fmax` aggregation uses it. -/
def Frac.fmax (a b : Frac) : Frac := if a.le b then b else a

/-- Is the fraction zero? -/
def Frac.isZero (a : Frac) : Bool := a.num = 0

/-- Python `int(x)` (truncation toward zero) of a fraction with positive
denominator. -/
def Frac.pyInt (a : Frac) : Int := a.num.tdiv a.den

/-- An integer as a fraction. -/
def Frac.ofInt (n : Int) : Frac := ⟨n, 1⟩

/-- `skfuzzy.trimf([a, b, c])` evaluated at the integer sample point `x`:
0 outside `[a, c]`, rising `(x−a)/(b−a)` on `(a, b)`, 1 at `b`, falling
`(c−x)/(c−b)` on `(b, c)`. -/
def trimf (a b c x : Int) : Frac :=
  if x = b then ⟨1, 1⟩
  else if a < x ∧ x < b then ⟨x - a, b - a⟩
  else if b < x ∧ x < c then ⟨c - x, c - b⟩
  else ⟨0, 1⟩

/-- The Mamdani aggregate output membership at output sample `x` for the
three rules of `_setup_fuzzy_system` (`low→short`, `medium→medium`,
`high→long`): each consequent is clipped (`fmin`) at its rule's firing
strength and the three are aggregated with `fmax`.  `lo`, `me`, `hi` are the
firing strengths; `min_green`/`max_green` shape the output memberships
`short = trimf [min_green, min_green, 25]`, `medium = trimf [20, 35, 50]`,
`long = trimf [40, max_green, max_green]`. -/
def aggregate (min_green max_green : Int) (lo me hi : Frac) (x : Int) : Frac :=
  ((lo.fmin (trimf min_green min_green 25 x)).fmax
    (me.fmin (trimf 20 35 50 x))).fmax
    (hi.fmin (trimf 40 max_green max_green x))

/-- One segment's contribution in `skfuzzy.defuzz(x, mfx, "centroid")`:
the exact area and moment of the trapezoid under the piecewise-linear
membership between consecutive samples `x1 < x2`.  Returns
`(moment*area, area)`. -/
def segmentContribution (x1 x2 : Int) (y1 y2 : Frac) : Frac × Frac :=
  if y1.isZero ∧ y2.isZero then (⟨0, 1⟩, ⟨0, 1⟩)
  else if y1 = y2 then
    let moment : Frac := ⟨x1 + x2, 2⟩
    let area : Frac := (Frac.ofInt (x2 - x1)).mul y1
    (moment.mul area, area)
  else if y1.isZero then
    let moment : Frac := (⟨2 * (x2 - x1), 3⟩ : Frac).add (Frac.ofInt x1)
    let area : Frac := (⟨x2 - x1, 2⟩ : Frac).mul y2
    (moment.mul area, area)
  else if y2.isZero then
    let moment : Frac := (⟨x2 - x1, 3⟩ : Frac).add (Frac.ofInt x1)
    let area : Frac := (⟨x2 - x1, 2⟩ : Frac).mul y1
    (moment.mul area, area)
  else
    let moment : Frac :=
      (((⟨2 * (x2 - x1), 3⟩ : Frac).mul (y2.add (y1.mul ⟨1, 2⟩))).div (y1.add y2)).add
        (Frac.ofInt x1)
    let area : Frac := (⟨x2 - x1, 2⟩ : Frac).mul (y1.add y2)
    (moment.mul area, area)

/-- `skfuzzy.defuzz` centroid over the sampled membership: sum each
segment's moment·area and area and divide.  When the aggregate membership
is identically zero the control system raises
"Crisp output cannot be calculated" (modelled as `none`); the caller's
`except` branch then falls back to linear interpolation. -/
def centroid (pts : List (Int × Frac)) : Option Frac :=
  let acc : Frac × Frac := (pts.zip (pts.drop 1)).foldl
    (fun (s : Frac × Frac) e =>
      let c := segmentContribution e.1.1 e.2.1 e.1.2 e.2.2
      (s.1.add c.1, s.2.add c.2))
    (⟨0, 1⟩, ⟨0, 1⟩)
  if acc.2.isZero then none else some (acc.1.div acc.2)

/-- The fuzzy-inference path of `compute_green_duration` for a clamped count:
fire the three vehicle-count memberships (`low = trimf [0,0,4]`,
`medium = trimf [2,6,12]`, `high = trimf [8,15,30]`), clip-and-aggregate over
the output universe `min_green..max_green` (step 1), defuzzify by centroid,
truncate with `int()` and clamp to `[min_green, max_green]`.  `none` when the
inference engine raises. -/
def fuzz_compute (min_green max_green vehicle_count : Int) : Option Int :=
  let lo := trimf 0 0 4 vehicle_count
  let me := trimf 2 6 12 vehicle_count
  let hi := trimf 8 15 30 vehicle_count
  let pts := (List.range (max_green - min_green + 1).toNat).map
    (fun k => (min_green + (k : Int), aggregate min_green max_green lo me hi (min_green + (k : Int))))
  match centroid pts with
  | none => none
  | some q => some (max min_green (min max_green q.pyInt))

/-- Python `int(q)` for a rational (truncation toward zero). -/
def pyIntQ (q : ℚ) : Int := q.num.tdiv q.den

/-- `FuzzyTrafficController._linear_fallback` on the already-clamped count:
`int(min_green + (count/30) * (max_green − min_green))`. -/
def linear_fallback (min_green max_green vehicle_count : Int) : Int :=
  pyIntQ ((min_green : ℚ) + ((vehicle_count : ℚ) / 30) * ((max_green : ℚ) - (min_green : ℚ)))

/-- `FuzzyTrafficController.compute_green_duration` (`min_green = 10`,
`max_green = 60` in every constructor call in the source): clamp the count
to `[0, 30]`; use the inference engine when available and fall back to
linear interpolation when it is absent or raises. -/
def compute_green_duration (fuzzy_available : Bool) (min_green max_green vehicle_count : Int) :
    Int :=
  let c := max 0 (min 30 vehicle_count)
  if fuzzy_available then
    match fuzz_compute min_green max_green c with
    | some d => d
    | none => linear_fallback min_green max_green c
  else linear_fallback min_green max_green c

end Fuzzy

-- ---------------------------------------------------------------------------
-- app/detection/yolo_detector.py : check_parking_violation and its state
-- ---------------------------------------------------------------------------

namespace YoloPark

/-- `PARKING_WARNING_SECONDS` (seconds before a warning). -/
def PARKING_WARNING_SECONDS : ℚ := 3

/-- `PARKING_VIOLATION_SECONDS` (seconds before a violation). -/
def PARKING_VIOLATION_SECONDS : ℚ := 8

/-- One entry of the module-level `parking_zones` list (a dict with id,
name and polygon; the display color is irrelevant). -/
structure YZone where
  id : String
  name : String
  polygon : List (Int × Int)
deriving DecidableEq, Repr

/-- `get_zone_for_point`: the first zone whose polygon contains the point. -/
def get_zone_for_point (zones : List YZone) (point : Int × Int) : Option YZone :=
  zones.find? (fun z => Geometry.point_in_polygon point z.polygon)

/-- The slice of `Detection` consumed by `check_parking_violation`. -/
structure YDetection where
  track_id : Int
  centroid : Int × Int
  speed_kmh : ℚ
  plate_text : Option String
deriving DecidableEq, Repr

/-- One `parking_tracker` entry:
`{"entry_time", "zone_id", "warned", "penalized", "plate", "tts_time"}`. -/
structure PTEntry where
  entry_time : ℚ
  zone_id : String
  warned : Bool
  penalized : Bool
  plate : Option String
  tts_time : ℚ
deriving DecidableEq, Repr

/-- The module-level mutable state that `check_parking_violation` touches:
`parking_tracker`, `penalized_vehicles`, and (through
`_apply_parking_penalty`) the scoring engine. -/
structure YoloState where
  parking_tracker : List (Int × PTEntry)
  penalized_vehicles : List (Int × ℚ)
  engine : Scoring.ScoringEngine
deriving DecidableEq, Repr

/-- The fresh module state. -/
def YoloState.init : YoloState := ⟨[], [], Scoring.ScoringEngine.init⟩

/-- The tuple returned by `check_parking_violation`,
`(time_in_zone, status, zone_id, is_penalized)`, extended with the two side
effects the claims count: the one-time warning
(`speak_warning` from the warning branch guarded by `entry["warned"]`) and
the one-time penalty (`_apply_parking_penalty`, i.e. the
`ScoringEngine.record_violation` call, guarded by `entry["penalized"]`). -/
structure CheckResult where
  time_in_zone : ℚ
  status : String
  zone_id : Option String
  is_penalized : Bool
  warned_event : Bool
  penalty_event : Bool
deriving DecidableEq, Repr

/-- `dict[k] = v` on an association list. -/
def setAssoc {α β : Type} [DecidableEq α] (l : List (α × β)) (k : α) (v : β) :
    List (α × β) :=
  if (l.lookup k).isSome then ParkDet.updateAssoc l k v else l ++ [(k, v)]

/-- `check_parking_violation` from yolo_detector.py. -/
def check_parking_violation (zones : List YZone) (st : YoloState)
    (det : YDetection) (current_time : ℚ) : YoloState × CheckResult :=
  match get_zone_for_point zones det.centroid with
  | none =>
    ({ st with parking_tracker := ParkDet.eraseAssoc st.parking_tracker det.track_id },
     ⟨0, "", none, (st.penalized_vehicles.lookup det.track_id).isSome, false, false⟩)
  | some zone =>
    let is_stationary := det.speed_kmh < 5
    match st.parking_tracker.lookup det.track_id with
    | some entry =>
      let time_in_zone := current_time - entry.entry_time
      let branch :
          PTEntry × List (Int × ℚ) × Scoring.ScoringEngine × String × Bool × Bool :=
        if PARKING_VIOLATION_SECONDS ≤ time_in_zone then
          if ¬ entry.penalized then
            let plate := match det.plate_text with
              | some p => some p
              | none => entry.plate
            let driver_id := match plate with
              | some p => p
              | none => "UNKNOWN-" ++ toString det.track_id
            let engine := (st.engine.record_violation driver_id .parking_no_parking
              current_time).1
            ({ entry with penalized := true },
             setAssoc st.penalized_vehicles det.track_id current_time,
             engine, "violation", false, true)
          else (entry, st.penalized_vehicles, st.engine, "violation", false, false)
        else if PARKING_WARNING_SECONDS ≤ time_in_zone then
          if ¬ entry.warned then
            ({ entry with warned := true }, st.penalized_vehicles, st.engine,
             "warning", true, false)
          else (entry, st.penalized_vehicles, st.engine, "warning", false, false)
        else (entry, st.penalized_vehicles, st.engine, "", false, false)
      let entry1 := branch.1
      let entry2 := if det.plate_text.isSome ∧ entry1.plate = none
        then { entry1 with plate := det.plate_text } else entry1
      let is_penalized := entry2.penalized || (branch.2.1.lookup det.track_id).isSome
      (⟨ParkDet.updateAssoc st.parking_tracker det.track_id entry2, branch.2.1,
        branch.2.2.1⟩,
       ⟨time_in_zone, branch.2.2.2.1, some zone.id, is_penalized,
        branch.2.2.2.2.1, branch.2.2.2.2.2⟩)
    | none =>
      let tracker := if is_stationary
        then st.parking_tracker ++
          [(det.track_id, ⟨current_time, zone.id, false, false, det.plate_text, 0⟩)]
        else st.parking_tracker
      ({ st with parking_tracker := tracker },
       ⟨0, "", some zone.id, (st.penalized_vehicles.lookup det.track_id).isSome,
        false, false⟩)

/-- Run `check_parking_violation` over a list of (detection, time) frames,
collecting the per-frame results. -/
def runFrames (zones : List YZone) (st : YoloState)
    (frames : List (YDetection × ℚ)) : YoloState × List CheckResult :=
  match frames with
  | [] => (st, [])
  | (det, t) :: rest =>
    let r := check_parking_violation zones st det t
    let rr := runFrames zones r.1 rest
    (rr.1, r.2 :: rr.2)

/-- The zone of the C4 scenario: a 100×100 no-parking rectangle. -/
def c4Zone : YZone := ⟨"zone_1", "No Parking Zone 1", [(0, 0), (100, 0), (100, 100), (0, 100)]⟩

/-- The C4 detection at frame `i`: track 7, centroid fixed inside the zone,
speed given by the profile `s`. -/
def c4Det (s : ℕ → ℚ) (i : ℕ) : YDetection := ⟨7, (50, 50), s i, none⟩

/-- The C4 frames: one frame per second over 10 simulated seconds. -/
def c4Frames (s : ℕ → ℚ) (t0 : ℚ) : List (YDetection × ℚ) :=
  [(c4Det s 0, t0), (c4Det s 1, t0 + 1), (c4Det s 2, t0 + 2), (c4Det s 3, t0 + 3),
   (c4Det s 4, t0 + 4), (c4Det s 5, t0 + 5), (c4Det s 6, t0 + 6), (c4Det s 7, t0 + 7),
   (c4Det s 8, t0 + 8), (c4Det s 9, t0 + 9), (c4Det s 10, t0 + 10)]

/-- The C4 run. -/
def c4Run (s : ℕ → ℚ) (t0 : ℚ) : YoloState × List CheckResult :=
  runFrames [c4Zone] YoloState.init (c4Frames s t0)

end YoloPark

-- ---------------------------------------------------------------------------
-- app/fuzzy/traffic_controller.py : FourWayTrafficController
--
-- The source file in src/ is truncated right after
-- `FourWayTrafficController.__init__` (and the beginning of
-- `_update_simulated_lanes`): the methods `update_north_count`, `tick`,
-- `activate_emergency_mode`, `deactivate_emergency_mode` and `get_status`
-- exist only through their call sites (routers/signal.py,
-- detection/yolo_detector.py).  The state below is taken from `__init__`;
-- the operations are modelled from the spec (§4.1).
-- ---------------------------------------------------------------------------

namespace FourWay

/-- The four lanes (`LANES`); `CYCLE_ORDER = [north, east, south, west]`. -/
inductive Lane
  | north
  | south
  | east
  | west
deriving DecidableEq, Repr

/-- Light colors (`COLORS`). -/
inductive Color
  | red
  | yellow
  | green
deriving DecidableEq, Repr

/-- Round-robin successor in `CYCLE_ORDER` (N → E → S → W → N). -/
def nextLane : Lane → Lane
  | .north => .east
  | .east => .south
  | .south => .west
  | .west => .north

/-- `FourWayTrafficController` state, from `__init__` (lines 307–346).
Wall-clock bookkeeping (`last_sim_update`, `last_tick_time`) and the random
simulated-lane refresh are replaced by explicit inputs: times are passed to
the operations and lane counts are set through `update_lane_count`.
`pre_emergency_lane` carries the spec's "records pre-emergency state for
restoration". -/
structure FourWayState where
  lane_counts : Lane → Int
  lane_states : Lane → Color
  current_green_lane : Lane
  green_remaining : Int
  yellow_remaining : Int
  is_yellow_phase : Bool
  emergency_mode : Bool
  emergency_lane : Option Lane
  emergency_start_time : Option ℚ
  emergency_duration : Int
  pre_emergency_lane : Option Lane
  fuzzy_available : Bool

/-- The `__init__` state: all red, then north set green; 30 s initial green;
emergency off; `emergency_duration = 30`. -/
def initState : FourWayState :=
  { lane_counts := fun _ => 0
    lane_states := fun l => if l = .north then .green else .red
    current_green_lane := .north
    green_remaining := 30
    yellow_remaining := 0
    is_yellow_phase := false
    emergency_mode := false
    emergency_lane := none
    emergency_start_time := none
    emergency_duration := 30
    pre_emergency_lane := none
    fuzzy_available := true }

/-- The cooldown window for re-triggering emergency mode (spec §4.1
"configurable cooldown window (e.g. 30s)"; `EMERGENCY_COOLDOWN_SECONDS = 30`
at the yolo_detector call site). -/
def EMERGENCY_COOLDOWN : ℚ := 30

/-- Modelled from the spec: `updateLaneCount(lane, count)` "records density;
no other side effects" (`update_north_count` is its north instance). -/
def update_lane_count (s : FourWayState) (lane : Lane) (c : Int) : FourWayState :=
  { s with lane_counts := fun l => if l = lane then c else s.lane_counts l }

/-- Modelled from the spec: `tick(elapsedSeconds)` subtracts elapsed time
from the active phase; on reaching ≤ 0, GREEN→YELLOW (fixed 3 s) or
YELLOW→RED→next-lane-GREEN with a freshly computed fuzzy duration; the
round-robin is suspended during emergency mode. -/
def tick (s : FourWayState) (elapsed : Int) : FourWayState :=
  if s.emergency_mode then s
  else if s.is_yellow_phase then
    let y := s.yellow_remaining - elapsed
    if y ≤ 0 then
      let nxt := nextLane s.current_green_lane
      { s with is_yellow_phase := false
               yellow_remaining := 0
               current_green_lane := nxt
               lane_states := fun l => if l = nxt then .green else .red
               green_remaining :=
                 Fuzzy.compute_green_duration s.fuzzy_available 10 60 (s.lane_counts nxt) }
    else { s with yellow_remaining := y }
  else
    let g := s.green_remaining - elapsed
    if g ≤ 0 then
      { s with is_yellow_phase := true
               yellow_remaining := 3
               green_remaining := 0
               lane_states := fun l => if l = s.current_green_lane then .yellow else .red }
    else { s with green_remaining := g }

/-- The result of `activate_emergency_mode`. -/
inductive ActResult
  | activated
  | cooldown
deriving DecidableEq, Repr

/-- Modelled from the spec: `activateEmergencyMode(lane)` forces `lane`
GREEN and all others RED, records the pre-emergency lane for restoration,
and returns a "cooldown" no-op result when re-invoked within the cooldown
window of the prior activation. -/
def activate_emergency_mode (s : FourWayState) (lane : Lane) (now : ℚ) :
    ActResult × FourWayState :=
  match s.emergency_start_time with
  | some t =>
    if now - t < EMERGENCY_COOLDOWN then (.cooldown, s)
    else
      (.activated,
       { s with emergency_mode := true
                emergency_lane := some lane
                emergency_start_time := some now
                pre_emergency_lane := some s.current_green_lane
                current_green_lane := lane
                is_yellow_phase := false
                yellow_remaining := 0
                lane_states := fun l => if l = lane then .green else .red })
  | none =>
    (.activated,
     { s with emergency_mode := true
              emergency_lane := some lane
              emergency_start_time := some now
              pre_emergency_lane := some s.current_green_lane
              current_green_lane := lane
              is_yellow_phase := false
              yellow_remaining := 0
              lane_states := fun l => if l = lane then .green else .red })

/-- Modelled from the spec: `deactivateEmergencyMode()` resumes the
round-robin at the pre-emergency lane with a freshly computed duration. -/
def deactivate_emergency_mode (s : FourWayState) : FourWayState :=
  let r := s.pre_emergency_lane.getD .north
  { s with emergency_mode := false
           emergency_lane := none
           emergency_start_time := none
           pre_emergency_lane := none
           current_green_lane := r
           is_yellow_phase := false
           yellow_remaining := 0
           lane_states := fun l => if l = r then .green else .red
           green_remaining :=
             Fuzzy.compute_green_duration s.fuzzy_available 10 60 (s.lane_counts r) }

/-- Modelled from the spec: `getStatus()` returns a snapshot after
internally ticking by the elapsed time since the last call; the returned
snapshot is the resulting state itself. -/
def get_status (s : FourWayState) (elapsed : Int) : FourWayState :=
  tick s elapsed

/-- The lanes, for counting. -/
def lanesList : List Lane := [.north, .south, .east, .west]

/-- How many lanes currently show the given color. -/
def countColor (s : FourWayState) (c : Color) : ℕ :=
  (lanesList.filter (fun l => s.lane_states l = c)).length

/-- The invariant exactly as claim C1 states it: outside emergency mode,
exactly one lane GREEN or all four RED; in emergency mode, exactly the
emergency lane GREEN and all others RED. -/
def ClaimInv (s : FourWayState) : Prop :=
  (s.emergency_mode = false →
    (countColor s .green = 1 ∧ countColor s .red = 3) ∨ countColor s .red = 4) ∧
  (s.emergency_mode = true →
    match s.emergency_lane with
    | some l => s.lane_states l = .green ∧ ∀ l', ¬ l' = l → s.lane_states l' = .red
    | none => False)

/-- The amended invariant: outside emergency mode there is one distinguished
lane showing GREEN — or, mid-transition, YELLOW — and the other three show
RED; in emergency mode exactly the emergency lane is GREEN and the rest are
RED. -/
def Inv (s : FourWayState) : Prop :=
  if s.emergency_mode then
    match s.emergency_lane with
    | some l => s.lane_states l = .green ∧ ∀ l', ¬ l' = l → s.lane_states l' = .red
    | none => False
  else
    ∃ l, (s.lane_states l = .green ∨ s.lane_states l = .yellow) ∧
      ∀ l', ¬ l' = l → s.lane_states l' = .red

end FourWay

-- ---------------------------------------------------------------------------
-- app/routers/video.py : VideoState (thread-safe frame state)
--
-- `update_frame` (the producer worker thread) and `get_frame`/`get_stats`
-- (arbitrarily many reader threads) all run under the single
-- `threading.Lock`.  The model makes every individual field access a step
-- of an interleaving semantics and makes the lock explicit, so mutual
-- exclusion — not atomicity of Python statements — is what rules out torn
-- snapshots.  A field's stored value is the index of the producer update
-- that wrote it, so "the snapshot mixes two updates" is "two read values
-- differ".
-- ---------------------------------------------------------------------------

namespace FrameState

/-- Thread identifiers: the producer worker thread and countably many
readers. -/
inductive Tid
  | producer
  | reader (r : ℕ)
deriving DecidableEq, Repr

/-- A reader's lifecycle: before `get_stats`, inside the `with self.lock`
block, and after returning with its snapshot. -/
inductive RPhase
  | idle
  | reading
  | finished
deriving DecidableEq, Repr

/-- A reader thread's local state: its phase and the field values it has
copied so far. -/
structure ReaderSt where
  phase : RPhase
  regs : List ℕ
deriving DecidableEq, Repr

/-- The whole system: the `k` shared fields written by `update_frame`
(`latest_frame_bytes`, `vehicle_count`, `frames_processed`,
`total_detections`, `plates_detected`, `last_frame_time` — each holding the
index of the update that wrote it), the lock owner, the producer's update
counter and write position, and the readers. -/
structure Sys (k : ℕ) where
  shared : Fin k → ℕ
  lock : Option Tid
  u : ℕ
  ppos : Option ℕ
  readers : ℕ → ReaderSt

/-- Initial state: fields hold update 0, lock free, everyone idle. -/
def Sys.init (k : ℕ) : Sys k := ⟨fun _ => 0, none, 0, none, fun _ => ⟨.idle, []⟩⟩

/-- One interleaving step: acquiring/releasing the lock and the individual
field writes (producer) and reads (readers) inside the critical sections. -/
inductive Step (k : ℕ) : Sys k → Sys k → Prop
  | pAcquire (s : Sys k) (h1 : s.lock = none) (h2 : s.ppos = none) :
      Step k s { s with lock := some .producer, ppos := some 0, u := s.u + 1 }
  | pWrite (s : Sys k) (m : ℕ) (hm : s.ppos = some m) (hlt : m < k) :
      Step k s { s with shared := (fun i => if i.1 = m then s.u else s.shared i),
                        ppos := some (m + 1) }
  | pRelease (s : Sys k) (hm : s.ppos = some k) :
      Step k s { s with lock := none, ppos := none }
  | rAcquire (s : Sys k) (r : ℕ) (h1 : s.lock = none)
      (h2 : (s.readers r).phase = .idle) :
      Step k s { s with lock := some (.reader r),
                        readers := (fun q => if q = r then ⟨.reading, []⟩
                          else s.readers q) }
  | rRead (s : Sys k) (r : ℕ) (h1 : (s.readers r).phase = .reading)
      (h2 : (s.readers r).regs.length < k) :
      Step k s { s with readers := (fun q => if q = r then
          ⟨.reading, (s.readers r).regs ++ [s.shared ⟨(s.readers r).regs.length, h2⟩]⟩
        else s.readers q) }
  | rRelease (s : Sys k) (r : ℕ) (h1 : (s.readers r).phase = .reading)
      (h2 : (s.readers r).regs.length = k) :
      Step k s { s with lock := none,
                        readers := (fun q => if q = r then ⟨.finished, (s.readers r).regs⟩
                          else s.readers q) }

/-- Reachability from the initial state. -/
def Reachable (k : ℕ) (s : Sys k) : Prop := Relation.ReflTransGen (Step k) (Sys.init k) s

/-- The inductive invariant: (1) mid-write, the producer holds the lock and
the fields split at the write position between the new and previous update;
(2) between writes, all fields carry the same update; (3) a reader inside
its critical section holds the lock and has copied only current values;
(4) a finished reader holds a full, single-update snapshot. -/
def SysInv (k : ℕ) (s : Sys k) : Prop :=
  (∀ m, s.ppos = some m → s.lock = some .producer ∧ m ≤ k ∧ 1 ≤ s.u ∧
    ∀ i : Fin k, s.shared i = if i.1 < m then s.u else s.u - 1) ∧
  (s.ppos = none → ∀ i, s.shared i = s.u) ∧
  (∀ r, (s.readers r).phase = .reading →
    s.lock = some (.reader r) ∧ (s.readers r).regs.length ≤ k ∧
    ∀ x ∈ (s.readers r).regs, x = s.u) ∧
  (∀ r, (s.readers r).phase = .finished →
    (s.readers r).regs.length = k ∧ ∃ n, ∀ x ∈ (s.readers r).regs, x = n)

/-- The C9 witness trace, `k = 2`, one full producer update followed by one
full read of reader 0 — each state is literally the record update the
corresponding `Step` constructor produces. -/
def c9S1 : Sys 2 :=
  { Sys.init 2 with
    lock := some .producer
    ppos := some 0
    u := (Sys.init 2).u + 1 }

/-- After the first field write. -/
def c9S2 : Sys 2 :=
  { c9S1 with
    shared := (fun i => if i.1 = 0 then c9S1.u else c9S1.shared i)
    ppos := some (0 + 1) }

/-- After the second field write. -/
def c9S3 : Sys 2 :=
  { c9S2 with
    shared := (fun i => if i.1 = 1 then c9S2.u else c9S2.shared i)
    ppos := some (1 + 1) }

/-- After the producer releases the lock. -/
def c9S4 : Sys 2 :=
  { c9S3 with
    lock := none
    ppos := none }

/-- After reader 0 acquires the lock. -/
def c9S5 : Sys 2 :=
  { c9S4 with
    lock := some (.reader 0)
    readers := (fun q => if q = 0 then ⟨.reading, []⟩ else c9S4.readers q) }

/-- After reader 0 copies the first field. -/
def c9S6 : Sys 2 := { c9S5 with readers := (fun q => if q = 0 then
    ⟨.reading, (c9S5.readers 0).regs ++
      [c9S5.shared ⟨(c9S5.readers 0).regs.length, by decide⟩]⟩
  else c9S5.readers q) }

/-- After reader 0 copies the second field. -/
def c9S7 : Sys 2 := { c9S6 with readers := (fun q => if q = 0 then
    ⟨.reading, (c9S6.readers 0).regs ++
      [c9S6.shared ⟨(c9S6.readers 0).regs.length, by decide⟩]⟩
  else c9S6.readers q) }

/-- After reader 0 releases the lock with its snapshot. -/
def c9S8 : Sys 2 :=
  { c9S7 with
    lock := none
    readers := (fun q => if q = 0 then ⟨.finished, (c9S7.readers 0).regs⟩
      else c9S7.readers q) }

end FrameState

-- ===========================================================================
-- THEOREMS
-- ===========================================================================

/-- Claim C7: for every zone type `t`, duration `d` and other-vehicle count
`n`, the computed fine is exactly `base(t) + d*5 + n*50` with the base read
from the per-zone-type table (and the breakdown fields match the three
summands); in particular for a no-parking zone, 60 s and 5 vehicles the
total is exactly 1000 + 300 + 250 = 1550. -/
theorem C7_fine_formula_exact :
    (∀ (t : String) (d n vid : Int),
      (FineService.calculate_dynamic_fine t d n vid).total_fine =
        FineService.BASE_PENALTIES (pyLower t) +
          d * FineService.DURATION_RATE + n * FineService.TRAFFIC_MULTIPLIER ∧
      (FineService.calculate_dynamic_fine t d n vid).base_penalty =
        FineService.BASE_PENALTIES (pyLower t) ∧
      (FineService.calculate_dynamic_fine t d n vid).duration_penalty =
        d * FineService.DURATION_RATE ∧
      (FineService.calculate_dynamic_fine t d n vid).impact_penalty =
        n * FineService.TRAFFIC_MULTIPLIER) ∧
    (FineService.calculate_dynamic_fine "no_parking" 60 5 1).total_fine = 1550 ∧
    FineService.BASE_PENALTIES "no_parking" = 1000 ∧
    FineService.DURATION_RATE = 5 ∧ FineService.TRAFFIC_MULTIPLIER = 50 := by
  refine ⟨fun t d n vid => ⟨rfl, rfl, rfl, rfl⟩, ?_, rfl, rfl, rfl⟩
  decide

/-- Claim C8: `apply_violation` with table entry `{points p, fine a}` maps a
driver with score `s`, fines `f`, count `v` to score `max 0 (s − p)`, fines
`f + a`, count `v + 1`, and appends exactly one record (the returned one) to
the history, capped at 100; a fresh driver (score 100) after one
`{points 10, fine 100}` violation has score 90, fines 100, count 1; after 11
such violations the score is exactly 0; and the score never becomes negative
along the way (it is `max 0 (100 − 10·k)` after `k` steps, hence ≥ 0). -/
theorem C8_apply_violation_ledger :
    (∀ (d : Scoring.DriverScore) (vt : Scoring.ViolationType) (vid : String) (now : ℚ),
      let r := d.apply_violation vt vid now
      r.1.current_score = max 0 (d.current_score - (Scoring.VIOLATION_PENALTIES vt).points) ∧
      r.1.total_fines = d.total_fines + (Scoring.VIOLATION_PENALTIES vt).fine ∧
      r.1.total_violations = d.total_violations + 1 ∧
      r.1.violation_history =
        (let h := d.violation_history ++ [r.2]
         if h.length > 100 then h.drop (h.length - 100) else h) ∧
      (0 ≤ d.current_score → 0 ≤ r.1.current_score)) ∧
    (let one := ((Scoring.freshDriver "D").apply_violation .parking_no_parking "VR" 0).1
     one.current_score = 90 ∧ one.total_fines = 100 ∧ one.total_violations = 1 ∧
     one.violation_history.length = 1) ∧
    (Scoring.applyViolationIter .parking_no_parking (Scoring.freshDriver "D") 11).current_score
      = 0 ∧
    (∀ k : ℕ, (Scoring.applyViolationIter .parking_no_parking (Scoring.freshDriver "D") k).current_score
      = max 0 (100 - 10 * (k : Int))) := by
  refine ⟨fun d vt vid now => ⟨rfl, rfl, rfl, rfl, fun h => le_max_left _ _⟩, ?_, ?_, ?_⟩
  · refine ⟨rfl, by norm_num [Scoring.DriverScore.apply_violation, Scoring.freshDriver,
      Scoring.VIOLATION_PENALTIES], rfl, rfl⟩
  · decide
  · intro k
    induction k with
    | zero => decide
    | succ n ih =>
      simp only [Scoring.applyViolationIter, Scoring.DriverScore.apply_violation,
        Scoring.VIOLATION_PENALTIES] at ih ⊢
      rw [ih]
      push_cast
      omega

/-- Claim C10: the bbox/zone overlap-ratio function is total and always
returns a value in `[0, 1]`; for every degenerate box (`x2 ≤ x1` or
`y2 ≤ y1`) it returns exactly 0 without ever dividing by zero. -/
theorem C10_overlap_ratio_total :
    ∀ (z : ParkDet.ParkingZone) (x1 y1 x2 y2 : Int),
      (0 ≤ z.get_overlap_ratio (x1, y1, x2, y2) ∧
        z.get_overlap_ratio (x1, y1, x2, y2) ≤ 1) ∧
      ((x2 ≤ x1 ∨ y2 ≤ y1) → z.get_overlap_ratio (x1, y1, x2, y2) = 0) := by
  intro z x1 y1 x2 y2
  unfold ParkDet.ParkingZone.get_overlap_ratio
  by_cases hdeg : x2 - x1 ≤ 0 ∨ y2 - y1 ≤ 0
  · rw [if_pos hdeg]
    exact ⟨⟨le_refl 0, by norm_num⟩, fun _ => rfl⟩
  · rw [if_neg hdeg]
    push_neg at hdeg
    obtain ⟨hw, hh⟩ := hdeg
    have hwpos : (0 : ℚ) < ((x2 - x1) * (y2 - y1) : Int) := by
      push_cast
      have : (0 : ℚ) < ((x2 : ℚ) - x1) := by exact_mod_cast hw
      have h2 : (0 : ℚ) < ((y2 : ℚ) - y1) := by exact_mod_cast hh
      positivity
    refine ⟨⟨div_nonneg (by positivity) (le_of_lt hwpos), ?_⟩, ?_⟩
    · rw [div_le_one hwpos]
      have hcount := List.countP_le_length
        (fun p => Geometry.point_in_polygon p (z.polygon.map (fun p => (p.1 - x1, p.2 - y1))))
        (l := (List.range (y2 - y1).toNat).flatMap
          (fun j => (List.range (x2 - x1).toNat).map (fun i => ((i : Int), (j : Int)))))
      have hlen : ((List.range (y2 - y1).toNat).flatMap
          (fun j => (List.range (x2 - x1).toNat).map (fun i => ((i : Int), (j : Int))))).length
          = (y2 - y1).toNat * (x2 - x1).toNat := by
        simp [List.length_flatMap, Function.comp_def, List.map_const']
      have : ((y2 - y1).toNat * (x2 - x1).toNat : ℚ) = (((x2 - x1) * (y2 - y1) : Int) : ℚ) := by
        have e1 : (((y2 - y1).toNat : Int) : ℚ) = ((y2 - y1 : Int) : ℚ) := by
          rw [Int.toNat_of_nonneg (le_of_lt hh)]
        have e2 : (((x2 - x1).toNat : Int) : ℚ) = ((x2 - x1 : Int) : ℚ) := by
          rw [Int.toNat_of_nonneg (le_of_lt hw)]
        push_cast at e1 e2 ⊢
        rw [e1, e2]
        ring
      rw [← this]
      calc ((((List.range (y2 - y1).toNat).flatMap
          (fun j => (List.range (x2 - x1).toNat).map (fun i => ((i : Int), (j : Int))))).countP
            (fun p => Geometry.point_in_polygon p (z.polygon.map (fun p => (p.1 - x1, p.2 - y1))))
            : ℕ) : ℚ)
          ≤ (((y2 - y1).toNat * (x2 - x1).toNat : ℕ) : ℚ) := by
            exact_mod_cast hlen ▸ hcount
        _ = ((y2 - y1).toNat * (x2 - x1).toNat : ℚ) := by push_cast; ring
    · intro hcase
      exfalso
      rcases hcase with h | h
      · exact absurd (by omega : x2 - x1 ≤ 0) (by omega)
      · exact absurd (by omega : y2 - y1 ≤ 0) (by omega)

/-- Witness for C10: concrete instances — a degenerate box yields exactly 0,
and a 2×2 box yields a ratio within `[0, 1]`. -/
theorem C10_overlap_ratio_total_witness :
    ParkDet.ParkingZone.get_overlap_ratio ParkDet.sampleZone (5, 5, 3, 9) = 0 ∧
    (0 ≤ ParkDet.ParkingZone.get_overlap_ratio ParkDet.sampleZone (0, 0, 2, 2) ∧
      ParkDet.ParkingZone.get_overlap_ratio ParkDet.sampleZone (0, 0, 2, 2) ≤ 1) :=
  ⟨(C10_overlap_ratio_total ParkDet.sampleZone 5 5 3 9).2 (Or.inl (by norm_num)),
   (C10_overlap_ratio_total ParkDet.sampleZone 0 0 2 2).1⟩

/-- `Int.tdiv` agrees with euclidean division on nonnegative arguments. -/
theorem tdiv_eq_ediv_of_nonneg {a b : Int} (ha : 0 ≤ a) (hb : 0 ≤ b) : a.tdiv b = a / b := by
  unfold Int.tdiv
  match a, ha, b, hb with
  | Int.ofNat m, _, Int.ofNat n, _ => simp [Int.ediv]

/-- Python `int()` truncation agrees with the floor on nonnegative
rationals. -/
theorem pyIntQ_eq_floor (q : ℚ) (h : 0 ≤ q) : Fuzzy.pyIntQ q = ⌊q⌋ := by
  unfold Fuzzy.pyIntQ
  rw [Rat.floor_def]
  exact tdiv_eq_ediv_of_nonneg (Rat.num_nonneg.mpr h) (by positivity)

/-- The linear fallback `int(10 + (c/30)·50)` is monotone on nonnegative
counts. -/
theorem linear_fallback_mono {a b : Int} (ha : 0 ≤ a) (hab : a ≤ b) :
    Fuzzy.linear_fallback 10 60 a ≤ Fuzzy.linear_fallback 10 60 b := by
  unfold Fuzzy.linear_fallback
  have hb : (0 : Int) ≤ b := le_trans ha hab
  have haq : (0 : ℚ) ≤ (a : ℚ) := by exact_mod_cast ha
  have hbq : (0 : ℚ) ≤ (b : ℚ) := by exact_mod_cast hb
  have habq : (a : ℚ) ≤ (b : ℚ) := by exact_mod_cast hab
  have hva : (0 : ℚ) ≤ ((10 : Int) : ℚ) + ((a : ℚ) / 30) * (((60 : Int) : ℚ) - ((10 : Int) : ℚ)) := by
    push_cast
    positivity
  have hvb : (0 : ℚ) ≤ ((10 : Int) : ℚ) + ((b : ℚ) / 30) * (((60 : Int) : ℚ) - ((10 : Int) : ℚ)) := by
    push_cast
    positivity
  rw [pyIntQ_eq_floor _ hva, pyIntQ_eq_floor _ hvb]
  apply Int.floor_le_floor
  push_cast
  have : (a : ℚ) / 30 ≤ (b : ℚ) / 30 := by
    apply div_le_div_of_nonneg_right habq
    norm_num
  nlinarith

/-- Claim C2 counterexample: the fuzzy-inference path of
`compute_green_duration` is NOT monotone — count 15 yields 53 s while the
larger count 29 yields only 50 s (the clipped `long` consequent's flat top
grows leftward as the `high` membership falls past its peak at 15, pulling
the centroid down).  This refutes "monotone non-decreasing under both
paths". -/
theorem C2_fuzzy_path_not_monotone :
    (15 : Int) < 29 ∧
    Fuzzy.compute_green_duration true 10 60 15 = 53 ∧
    Fuzzy.compute_green_duration true 10 60 29 = 50 ∧
    Fuzzy.compute_green_duration true 10 60 29 < Fuzzy.compute_green_duration true 10 60 15 := by
  refine ⟨by norm_num, ?_, ?_, ?_⟩ <;> decide

/-- Claim C2 as amended: the deterministic linear-interpolation fallback path
of `compute_green_duration` is monotone non-decreasing in the vehicle count;
the fuzzy-inference path is not (see the counterexample), so the two paths
agree on relative ordering only where the fuzzy path itself is ordered. -/
theorem C2_fallback_monotone :
    ∀ c1 c2 : Int, c1 ≤ c2 →
      Fuzzy.compute_green_duration false 10 60 c1 ≤ Fuzzy.compute_green_duration false 10 60 c2 := by
  intro c1 c2 h
  unfold Fuzzy.compute_green_duration
  simp only [Bool.false_eq_true, if_false]
  apply linear_fallback_mono
  · omega
  · omega

/-- Witness for the amended C2 theorem at counts 3 ≤ 20. -/
theorem C2_fallback_monotone_witness :
    (3 : Int) ≤ 20 ∧
    Fuzzy.compute_green_duration false 10 60 3 ≤ Fuzzy.compute_green_duration false 10 60 20 :=
  ⟨by norm_num, C2_fallback_monotone 3 20 (by norm_num)⟩

-- Step lemmas characterizing `check_parking_violation` per branch (used to
-- drive the C4/C5 traces without unfolding the whole run at once).

/-- In-zone, tracked, below the warning threshold: no event, timer updated. -/
theorem yolo_step_pre (zones : List YoloPark.YZone) (st : YoloPark.YoloState)
    (det : YoloPark.YDetection) (now : ℚ) (zone : YoloPark.YZone) (entry : YoloPark.PTEntry)
    (hz : YoloPark.get_zone_for_point zones det.centroid = some zone)
    (he : st.parking_tracker.lookup det.track_id = some entry)
    (hp : det.plate_text = none)
    (h8 : ¬ YoloPark.PARKING_VIOLATION_SECONDS ≤ now - entry.entry_time)
    (h3 : ¬ YoloPark.PARKING_WARNING_SECONDS ≤ now - entry.entry_time) :
    YoloPark.check_parking_violation zones st det now =
      (⟨ParkDet.updateAssoc st.parking_tracker det.track_id entry, st.penalized_vehicles,
        st.engine⟩,
       ⟨now - entry.entry_time, "", some zone.id,
        entry.penalized || (st.penalized_vehicles.lookup det.track_id).isSome,
        false, false⟩) := by
  unfold YoloPark.check_parking_violation
  simp only [hz, he, hp, h8, h3, if_false, Option.isSome_none, Bool.false_eq_true,
    false_and, if_neg (not_false_eq_true.mpr trivial)]
  try simp

/-- In-zone, tracked, in the warning window, not yet warned: the one-time
WARNING side effect fires and the `warned` flag is set. -/
theorem yolo_step_warn_first (zones : List YoloPark.YZone) (st : YoloPark.YoloState)
    (det : YoloPark.YDetection) (now : ℚ) (zone : YoloPark.YZone) (entry : YoloPark.PTEntry)
    (hz : YoloPark.get_zone_for_point zones det.centroid = some zone)
    (he : st.parking_tracker.lookup det.track_id = some entry)
    (hp : det.plate_text = none)
    (h8 : ¬ YoloPark.PARKING_VIOLATION_SECONDS ≤ now - entry.entry_time)
    (h3 : YoloPark.PARKING_WARNING_SECONDS ≤ now - entry.entry_time)
    (hw : entry.warned = false) :
    YoloPark.check_parking_violation zones st det now =
      (⟨ParkDet.updateAssoc st.parking_tracker det.track_id { entry with warned := true },
        st.penalized_vehicles, st.engine⟩,
       ⟨now - entry.entry_time, "warning", some zone.id,
        entry.penalized || (st.penalized_vehicles.lookup det.track_id).isSome,
        true, false⟩) := by
  unfold YoloPark.check_parking_violation
  simp only [hz, he, hp, h8, h3, hw, if_true, if_false]
  simp

/-- In-zone, tracked, in the warning window, already warned: no new event. -/
theorem yolo_step_warn_repeat (zones : List YoloPark.YZone) (st : YoloPark.YoloState)
    (det : YoloPark.YDetection) (now : ℚ) (zone : YoloPark.YZone) (entry : YoloPark.PTEntry)
    (hz : YoloPark.get_zone_for_point zones det.centroid = some zone)
    (he : st.parking_tracker.lookup det.track_id = some entry)
    (hp : det.plate_text = none)
    (h8 : ¬ YoloPark.PARKING_VIOLATION_SECONDS ≤ now - entry.entry_time)
    (h3 : YoloPark.PARKING_WARNING_SECONDS ≤ now - entry.entry_time)
    (hw : entry.warned = true) :
    YoloPark.check_parking_violation zones st det now =
      (⟨ParkDet.updateAssoc st.parking_tracker det.track_id entry,
        st.penalized_vehicles, st.engine⟩,
       ⟨now - entry.entry_time, "warning", some zone.id,
        entry.penalized || (st.penalized_vehicles.lookup det.track_id).isSome,
        false, false⟩) := by
  unfold YoloPark.check_parking_violation
  simp only [hz, he, hp, h8, h3, hw, if_true, if_false]
  simp

/-- In-zone, tracked, at/above the violation threshold, not yet penalized:
the penalty fires once (`_apply_parking_penalty` → `record_violation`),
the entry is marked penalized and the vehicle is added to
`penalized_vehicles`. -/
theorem yolo_step_vio_first (zones : List YoloPark.YZone) (st : YoloPark.YoloState)
    (det : YoloPark.YDetection) (now : ℚ) (zone : YoloPark.YZone) (entry : YoloPark.PTEntry)
    (hz : YoloPark.get_zone_for_point zones det.centroid = some zone)
    (he : st.parking_tracker.lookup det.track_id = some entry)
    (hp : det.plate_text = none) (hpl : entry.plate = none)
    (h8 : YoloPark.PARKING_VIOLATION_SECONDS ≤ now - entry.entry_time)
    (hpen : entry.penalized = false) :
    YoloPark.check_parking_violation zones st det now =
      (⟨ParkDet.updateAssoc st.parking_tracker det.track_id { entry with penalized := true },
        YoloPark.setAssoc st.penalized_vehicles det.track_id now,
        (st.engine.record_violation ("UNKNOWN-" ++ toString det.track_id)
          .parking_no_parking now).1⟩,
       ⟨now - entry.entry_time, "violation", some zone.id, true, false, true⟩) := by
  unfold YoloPark.check_parking_violation
  simp only [hz, he, hp, hpl, h8, hpen, if_true, if_false]
  simp

/-- In-zone, tracked, at/above the violation threshold, already penalized:
no second penalty. -/
theorem yolo_step_vio_repeat (zones : List YoloPark.YZone) (st : YoloPark.YoloState)
    (det : YoloPark.YDetection) (now : ℚ) (zone : YoloPark.YZone) (entry : YoloPark.PTEntry)
    (hz : YoloPark.get_zone_for_point zones det.centroid = some zone)
    (he : st.parking_tracker.lookup det.track_id = some entry)
    (hp : det.plate_text = none)
    (h8 : YoloPark.PARKING_VIOLATION_SECONDS ≤ now - entry.entry_time)
    (hpen : entry.penalized = true) :
    YoloPark.check_parking_violation zones st det now =
      (⟨ParkDet.updateAssoc st.parking_tracker det.track_id entry,
        st.penalized_vehicles, st.engine⟩,
       ⟨now - entry.entry_time, "violation", some zone.id, true, false, false⟩) := by
  unfold YoloPark.check_parking_violation
  simp only [hz, he, hp, h8, hpen, if_true, if_false]
  simp [hpen]

/-- In-zone, untracked, near-stationary: the dwell record is created. -/
theorem yolo_step_new (zones : List YoloPark.YZone) (st : YoloPark.YoloState)
    (det : YoloPark.YDetection) (now : ℚ) (zone : YoloPark.YZone)
    (hz : YoloPark.get_zone_for_point zones det.centroid = some zone)
    (he : st.parking_tracker.lookup det.track_id = none)
    (hs : det.speed_kmh < 5) :
    YoloPark.check_parking_violation zones st det now =
      ({ st with parking_tracker := st.parking_tracker ++
          [(det.track_id, ⟨now, zone.id, false, false, det.plate_text, 0⟩)] },
       ⟨0, "", some zone.id, (st.penalized_vehicles.lookup det.track_id).isSome,
        false, false⟩) := by
  unfold YoloPark.check_parking_violation
  simp only [hz, he, hs, if_true]
  try simp

/-- In-zone, untracked, moving at or above the 5 km/h threshold: no dwell
record is created and the state is unchanged. -/
theorem yolo_step_new_fast (zones : List YoloPark.YZone) (st : YoloPark.YoloState)
    (det : YoloPark.YDetection) (now : ℚ) (zone : YoloPark.YZone)
    (hz : YoloPark.get_zone_for_point zones det.centroid = some zone)
    (he : st.parking_tracker.lookup det.track_id = none)
    (hs : ¬ det.speed_kmh < 5) :
    YoloPark.check_parking_violation zones st det now =
      (st,
       ⟨0, "", some zone.id, (st.penalized_vehicles.lookup det.track_id).isSome,
        false, false⟩) := by
  unfold YoloPark.check_parking_violation
  simp only [hz, he, hs, if_false]
  try simp

/-- Claim C4: with warning threshold 3 s and violation threshold 8 s, a
tracked vehicle (track 7) whose centroid stays inside one zone over 10
simulated seconds (one frame per second, near-stationary on the frame that
starts the timer): no warning or violation side effect while dwell < 3 s;
exactly one WARNING side effect, on the first frame with 3 ≤ dwell < 8;
exactly one penalty — the scoring engine is called exactly once — on the
first frame with dwell ≥ 8, repeated member frames never re-triggering it;
and the reported dwell time is strictly increasing across the frames. -/
theorem C4_dwell_thresholds (s : ℕ → ℚ) (t0 : ℚ) (h : s 0 < 5) :
    ((YoloPark.c4Run s t0).2.map (fun r => r.status) =
      ["", "", "", "warning", "warning", "warning", "warning", "warning",
       "violation", "violation", "violation"]) ∧
    ((YoloPark.c4Run s t0).2.map (fun r => r.warned_event) =
      [false, false, false, true, false, false, false, false, false, false, false]) ∧
    ((YoloPark.c4Run s t0).2.map (fun r => r.penalty_event) =
      [false, false, false, false, false, false, false, false, true, false, false]) ∧
    ((YoloPark.c4Run s t0).2.map (fun r => r.time_in_zone) =
      [0, 1, 2, 3, 4, 5, 6, 7, 8, 9, 10]) ∧
    List.Chain' (fun a b => a < b) ((YoloPark.c4Run s t0).2.map (fun r => r.time_in_zone)) ∧
    (YoloPark.c4Run s t0).1.engine.violation_counter = 1 := by
  have hz : YoloPark.get_zone_for_point [YoloPark.c4Zone] (50, 50) = some YoloPark.c4Zone := by
    decide
  have h0 : YoloPark.check_parking_violation [YoloPark.c4Zone] YoloPark.YoloState.init
      (YoloPark.c4Det s 0) t0 =
      (⟨[(7, ⟨t0, "zone_1", false, false, none, 0⟩)], [], Scoring.ScoringEngine.init⟩,
       ⟨0, "", some "zone_1", false, false, false⟩) := by
    rw [yolo_step_new [YoloPark.c4Zone] YoloPark.YoloState.init (YoloPark.c4Det s 0)
      t0 YoloPark.c4Zone hz rfl h]
    norm_num [YoloPark.YoloState.init, YoloPark.c4Zone, YoloPark.c4Det,
      Scoring.ScoringEngine.init]
  have hpre : ∀ (j : ℕ) (q : ℚ) (st : YoloPark.YoloState) (E : YoloPark.PTEntry),
      st.parking_tracker = [(7, E)] → E.entry_time = t0 → q < 3 →
      YoloPark.check_parking_violation [YoloPark.c4Zone] st (YoloPark.c4Det s j)
        (t0 + q) =
      (⟨[(7, E)], st.penalized_vehicles, st.engine⟩,
       ⟨q, "", some "zone_1",
        E.penalized || (st.penalized_vehicles.lookup 7).isSome, false, false⟩) := by
    intro j q st E hst het hq
    rw [yolo_step_pre [YoloPark.c4Zone] st (YoloPark.c4Det s j) (t0 + q)
      YoloPark.c4Zone E hz (by rw [hst]; rfl) rfl
      (by rw [het]; simp only [YoloPark.PARKING_VIOLATION_SECONDS]; intro hcon; linarith)
      (by rw [het]; simp only [YoloPark.PARKING_WARNING_SECONDS]; intro hcon; linarith)]
    rw [hst, het]
    norm_num [ParkDet.updateAssoc, YoloPark.c4Zone, YoloPark.c4Det]
  have hwf : ∀ (j : ℕ) (q : ℚ) (st : YoloPark.YoloState) (E : YoloPark.PTEntry),
      st.parking_tracker = [(7, E)] → E.entry_time = t0 → E.warned = false →
      3 ≤ q → q < 8 →
      YoloPark.check_parking_violation [YoloPark.c4Zone] st (YoloPark.c4Det s j)
        (t0 + q) =
      (⟨[(7, { E with warned := true })], st.penalized_vehicles, st.engine⟩,
       ⟨q, "warning", some "zone_1",
        E.penalized || (st.penalized_vehicles.lookup 7).isSome, true, false⟩) := by
    intro j q st E hst het hw h3 h8
    rw [yolo_step_warn_first [YoloPark.c4Zone] st (YoloPark.c4Det s j) (t0 + q)
      YoloPark.c4Zone E hz (by rw [hst]; rfl) rfl
      (by rw [het]; simp only [YoloPark.PARKING_VIOLATION_SECONDS]; intro hcon; linarith)
      (by rw [het]; simp only [YoloPark.PARKING_WARNING_SECONDS]; linarith) hw]
    rw [hst, het]
    norm_num [ParkDet.updateAssoc, YoloPark.c4Zone, YoloPark.c4Det]
  have hwr : ∀ (j : ℕ) (q : ℚ) (st : YoloPark.YoloState) (E : YoloPark.PTEntry),
      st.parking_tracker = [(7, E)] → E.entry_time = t0 → E.warned = true →
      3 ≤ q → q < 8 →
      YoloPark.check_parking_violation [YoloPark.c4Zone] st (YoloPark.c4Det s j)
        (t0 + q) =
      (⟨[(7, E)], st.penalized_vehicles, st.engine⟩,
       ⟨q, "warning", some "zone_1",
        E.penalized || (st.penalized_vehicles.lookup 7).isSome, false, false⟩) := by
    intro j q st E hst het hw h3 h8
    rw [yolo_step_warn_repeat [YoloPark.c4Zone] st (YoloPark.c4Det s j) (t0 + q)
      YoloPark.c4Zone E hz (by rw [hst]; rfl) rfl
      (by rw [het]; simp only [YoloPark.PARKING_VIOLATION_SECONDS]; intro hcon; linarith)
      (by rw [het]; simp only [YoloPark.PARKING_WARNING_SECONDS]; linarith) hw]
    rw [hst, het]
    norm_num [ParkDet.updateAssoc, YoloPark.c4Zone, YoloPark.c4Det]
  have hvf : ∀ (j : ℕ) (q : ℚ) (st : YoloPark.YoloState) (E : YoloPark.PTEntry),
      st.parking_tracker = [(7, E)] → E.entry_time = t0 → E.penalized = false →
      E.plate = none → 8 ≤ q →
      YoloPark.check_parking_violation [YoloPark.c4Zone] st (YoloPark.c4Det s j)
        (t0 + q) =
      (⟨[(7, { E with penalized := true })],
        YoloPark.setAssoc st.penalized_vehicles 7 (t0 + q),
        (st.engine.record_violation ("UNKNOWN-" ++ toString (7 : Int))
          .parking_no_parking (t0 + q)).1⟩,
       ⟨q, "violation", some "zone_1", true, false, true⟩) := by
    intro j q st E hst het hpen hpl h8
    rw [yolo_step_vio_first [YoloPark.c4Zone] st (YoloPark.c4Det s j) (t0 + q)
      YoloPark.c4Zone E hz (by rw [hst]; rfl) rfl hpl
      (by rw [het]; simp only [YoloPark.PARKING_VIOLATION_SECONDS]; linarith) hpen]
    rw [hst, het]
    norm_num [ParkDet.updateAssoc, YoloPark.c4Zone, YoloPark.c4Det]
  have hvr : ∀ (j : ℕ) (q : ℚ) (st : YoloPark.YoloState) (E : YoloPark.PTEntry),
      st.parking_tracker = [(7, E)] → E.entry_time = t0 → E.penalized = true →
      8 ≤ q →
      YoloPark.check_parking_violation [YoloPark.c4Zone] st (YoloPark.c4Det s j)
        (t0 + q) =
      (⟨[(7, E)], st.penalized_vehicles, st.engine⟩,
       ⟨q, "violation", some "zone_1", true, false, false⟩) := by
    intro j q st E hst het hpen h8
    rw [yolo_step_vio_repeat [YoloPark.c4Zone] st (YoloPark.c4Det s j) (t0 + q)
      YoloPark.c4Zone E hz (by rw [hst]; rfl) rfl
      (by rw [het]; simp only [YoloPark.PARKING_VIOLATION_SECONDS]; linarith) hpen]
    rw [hst, het]
    norm_num [ParkDet.updateAssoc, YoloPark.c4Zone, YoloPark.c4Det]
  have h1 : YoloPark.check_parking_violation [YoloPark.c4Zone]
      ⟨[(7, ⟨t0, "zone_1", false, false, none, 0⟩)], [], Scoring.ScoringEngine.init⟩
      (YoloPark.c4Det s 1) (t0 + 1) =
      (⟨[(7, ⟨t0, "zone_1", false, false, none, 0⟩)], [], Scoring.ScoringEngine.init⟩,
       ⟨1, "", some "zone_1", false, false, false⟩) := by
    rw [hpre 1 1 ⟨[(7, ⟨t0, "zone_1", false, false, none, 0⟩)], [], Scoring.ScoringEngine.init⟩
      ⟨t0, "zone_1", false, false, none, 0⟩ rfl rfl (by norm_num)]
    norm_num
  have h2 : YoloPark.check_parking_violation [YoloPark.c4Zone]
      ⟨[(7, ⟨t0, "zone_1", false, false, none, 0⟩)], [], Scoring.ScoringEngine.init⟩
      (YoloPark.c4Det s 2) (t0 + 2) =
      (⟨[(7, ⟨t0, "zone_1", false, false, none, 0⟩)], [], Scoring.ScoringEngine.init⟩,
       ⟨2, "", some "zone_1", false, false, false⟩) := by
    rw [hpre 2 2 ⟨[(7, ⟨t0, "zone_1", false, false, none, 0⟩)], [], Scoring.ScoringEngine.init⟩
      ⟨t0, "zone_1", false, false, none, 0⟩ rfl rfl (by norm_num)]
    norm_num
  have h3 : YoloPark.check_parking_violation [YoloPark.c4Zone]
      ⟨[(7, ⟨t0, "zone_1", false, false, none, 0⟩)], [], Scoring.ScoringEngine.init⟩
      (YoloPark.c4Det s 3) (t0 + 3) =
      (⟨[(7, ⟨t0, "zone_1", true, false, none, 0⟩)], [], Scoring.ScoringEngine.init⟩,
       ⟨3, "warning", some "zone_1", false, true, false⟩) := by
    rw [hwf 3 3 ⟨[(7, ⟨t0, "zone_1", false, false, none, 0⟩)], [], Scoring.ScoringEngine.init⟩
      ⟨t0, "zone_1", false, false, none, 0⟩ rfl rfl rfl (by norm_num) (by norm_num)]
    norm_num
  have h4 : YoloPark.check_parking_violation [YoloPark.c4Zone]
      ⟨[(7, ⟨t0, "zone_1", true, false, none, 0⟩)], [], Scoring.ScoringEngine.init⟩
      (YoloPark.c4Det s 4) (t0 + 4) =
      (⟨[(7, ⟨t0, "zone_1", true, false, none, 0⟩)], [], Scoring.ScoringEngine.init⟩,
       ⟨4, "warning", some "zone_1", false, false, false⟩) := by
    rw [hwr 4 4 ⟨[(7, ⟨t0, "zone_1", true, false, none, 0⟩)], [], Scoring.ScoringEngine.init⟩
      ⟨t0, "zone_1", true, false, none, 0⟩ rfl rfl rfl (by norm_num) (by norm_num)]
    norm_num
  have h5 : YoloPark.check_parking_violation [YoloPark.c4Zone]
      ⟨[(7, ⟨t0, "zone_1", true, false, none, 0⟩)], [], Scoring.ScoringEngine.init⟩
      (YoloPark.c4Det s 5) (t0 + 5) =
      (⟨[(7, ⟨t0, "zone_1", true, false, none, 0⟩)], [], Scoring.ScoringEngine.init⟩,
       ⟨5, "warning", some "zone_1", false, false, false⟩) := by
    rw [hwr 5 5 ⟨[(7, ⟨t0, "zone_1", true, false, none, 0⟩)], [], Scoring.ScoringEngine.init⟩
      ⟨t0, "zone_1", true, false, none, 0⟩ rfl rfl rfl (by norm_num) (by norm_num)]
    norm_num
  have h6 : YoloPark.check_parking_violation [YoloPark.c4Zone]
      ⟨[(7, ⟨t0, "zone_1", true, false, none, 0⟩)], [], Scoring.ScoringEngine.init⟩
      (YoloPark.c4Det s 6) (t0 + 6) =
      (⟨[(7, ⟨t0, "zone_1", true, false, none, 0⟩)], [], Scoring.ScoringEngine.init⟩,
       ⟨6, "warning", some "zone_1", false, false, false⟩) := by
    rw [hwr 6 6 ⟨[(7, ⟨t0, "zone_1", true, false, none, 0⟩)], [], Scoring.ScoringEngine.init⟩
      ⟨t0, "zone_1", true, false, none, 0⟩ rfl rfl rfl (by norm_num) (by norm_num)]
    norm_num
  have h7 : YoloPark.check_parking_violation [YoloPark.c4Zone]
      ⟨[(7, ⟨t0, "zone_1", true, false, none, 0⟩)], [], Scoring.ScoringEngine.init⟩
      (YoloPark.c4Det s 7) (t0 + 7) =
      (⟨[(7, ⟨t0, "zone_1", true, false, none, 0⟩)], [], Scoring.ScoringEngine.init⟩,
       ⟨7, "warning", some "zone_1", false, false, false⟩) := by
    rw [hwr 7 7 ⟨[(7, ⟨t0, "zone_1", true, false, none, 0⟩)], [], Scoring.ScoringEngine.init⟩
      ⟨t0, "zone_1", true, false, none, 0⟩ rfl rfl rfl (by norm_num) (by norm_num)]
    norm_num
  have h8 : YoloPark.check_parking_violation [YoloPark.c4Zone]
      ⟨[(7, ⟨t0, "zone_1", true, false, none, 0⟩)], [], Scoring.ScoringEngine.init⟩
      (YoloPark.c4Det s 8) (t0 + 8) =
      (⟨[(7, ⟨t0, "zone_1", true, true, none, 0⟩)], [(7, t0 + 8)],
        (Scoring.ScoringEngine.init.record_violation ("UNKNOWN-" ++ toString (7 : Int))
          .parking_no_parking (t0 + 8)).1⟩,
       ⟨8, "violation", some "zone_1", true, false, true⟩) := by
    rw [hvf 8 8 ⟨[(7, ⟨t0, "zone_1", true, false, none, 0⟩)], [], Scoring.ScoringEngine.init⟩
      ⟨t0, "zone_1", true, false, none, 0⟩ rfl rfl rfl rfl (by norm_num)]
    try norm_num [YoloPark.setAssoc]
  have h9 : YoloPark.check_parking_violation [YoloPark.c4Zone]
      ⟨[(7, ⟨t0, "zone_1", true, true, none, 0⟩)], [(7, t0 + 8)],
        (Scoring.ScoringEngine.init.record_violation ("UNKNOWN-" ++ toString (7 : Int))
          .parking_no_parking (t0 + 8)).1⟩
      (YoloPark.c4Det s 9) (t0 + 9) =
      (⟨[(7, ⟨t0, "zone_1", true, true, none, 0⟩)], [(7, t0 + 8)],
        (Scoring.ScoringEngine.init.record_violation ("UNKNOWN-" ++ toString (7 : Int))
          .parking_no_parking (t0 + 8)).1⟩,
       ⟨9, "violation", some "zone_1", true, false, false⟩) := by
    rw [hvr 9 9 ⟨[(7, ⟨t0, "zone_1", true, true, none, 0⟩)], [(7, t0 + 8)],
        (Scoring.ScoringEngine.init.record_violation ("UNKNOWN-" ++ toString (7 : Int))
          .parking_no_parking (t0 + 8)).1⟩
      ⟨t0, "zone_1", true, true, none, 0⟩ rfl rfl rfl (by norm_num)]
    try norm_num
  have h10 : YoloPark.check_parking_violation [YoloPark.c4Zone]
      ⟨[(7, ⟨t0, "zone_1", true, true, none, 0⟩)], [(7, t0 + 8)],
        (Scoring.ScoringEngine.init.record_violation ("UNKNOWN-" ++ toString (7 : Int))
          .parking_no_parking (t0 + 8)).1⟩
      (YoloPark.c4Det s 10) (t0 + 10) =
      (⟨[(7, ⟨t0, "zone_1", true, true, none, 0⟩)], [(7, t0 + 8)],
        (Scoring.ScoringEngine.init.record_violation ("UNKNOWN-" ++ toString (7 : Int))
          .parking_no_parking (t0 + 8)).1⟩,
       ⟨10, "violation", some "zone_1", true, false, false⟩) := by
    rw [hvr 10 10 ⟨[(7, ⟨t0, "zone_1", true, true, none, 0⟩)], [(7, t0 + 8)],
        (Scoring.ScoringEngine.init.record_violation ("UNKNOWN-" ++ toString (7 : Int))
          .parking_no_parking (t0 + 8)).1⟩
      ⟨t0, "zone_1", true, true, none, 0⟩ rfl rfl rfl (by norm_num)]
    try norm_num
  have hrun : YoloPark.c4Run s t0 =
      (⟨[(7, ⟨t0, "zone_1", true, true, none, 0⟩)], [(7, t0 + 8)],
        (Scoring.ScoringEngine.init.record_violation ("UNKNOWN-" ++ toString (7 : Int))
          .parking_no_parking (t0 + 8)).1⟩,
       [⟨0, "", some "zone_1", false, false, false⟩,
        ⟨1, "", some "zone_1", false, false, false⟩,
        ⟨2, "", some "zone_1", false, false, false⟩,
        ⟨3, "warning", some "zone_1", false, true, false⟩,
        ⟨4, "warning", some "zone_1", false, false, false⟩,
        ⟨5, "warning", some "zone_1", false, false, false⟩,
        ⟨6, "warning", some "zone_1", false, false, false⟩,
        ⟨7, "warning", some "zone_1", false, false, false⟩,
        ⟨8, "violation", some "zone_1", true, false, true⟩,
        ⟨9, "violation", some "zone_1", true, false, false⟩,
        ⟨10, "violation", some "zone_1", true, false, false⟩]) := by
    simp only [YoloPark.c4Run, YoloPark.c4Frames, YoloPark.runFrames, h0, h1, h2, h3, h4,
      h5, h6, h7, h8, h9, h10]
  rw [hrun]
  refine ⟨by norm_num, by norm_num, by norm_num, by norm_num, ?_, ?_⟩
  · norm_num [List.chain'_cons]
  · norm_num [Scoring.ScoringEngine.record_violation, Scoring.ScoringEngine.init,
      Scoring.ScoringEngine.get_or_create_driver, Scoring.ScoringEngine.setDriver,
      List.lookup]

/-- Witness for C4 at the concrete profile `s = 0`, `t0 = 0`. -/
theorem C4_dwell_thresholds_witness :
    ((0 : ℚ) < 5) ∧
    ((YoloPark.c4Run (fun _ => 0) 0).2.map (fun r => r.status) =
      ["", "", "", "warning", "warning", "warning", "warning", "warning",
       "violation", "violation", "violation"]) ∧
    (YoloPark.c4Run (fun _ => 0) 0).1.engine.violation_counter = 1 :=
  ⟨by norm_num, (C4_dwell_thresholds (fun _ => 0) 0 (by norm_num)).1,
   (C4_dwell_thresholds (fun _ => 0) 0 (by norm_num)).2.2.2.2.2⟩

-- Association-list helper lemmas for the C5/C6 preservation arguments.

/-- `List.lookup` on a cons cell, phrased with propositional equality
(generic over the lawful `BEq` instance the call site uses). -/
theorem lookup_cons' {α β : Type} [BEq α] [LawfulBEq α] [DecidableEq α]
    (t : α) (p : α × β) (rest : List (α × β)) :
    List.lookup t (p :: rest) = if t = p.1 then some p.2 else List.lookup t rest := by
  show (match t == p.1 with
    | true => some p.2
    | false => List.lookup t rest) = _
  by_cases h : t = p.1
  · have hb : (t == p.1) = true := beq_iff_eq.mpr h
    rw [hb, if_pos h]
  · have hb : (t == p.1) = false := beq_eq_false_iff_ne.mpr h
    rw [hb, if_neg h]

/-- A key absent from an association list stays absent after `eraseAssoc`. -/
theorem lookup_none_eraseAssoc {α β : Type} [BEq α] [LawfulBEq α] [DecidableEq α] (l : List (α × β)) (t k : α)
    (h : l.lookup t = none) : (ParkDet.eraseAssoc l k).lookup t = none := by
  induction l with
  | nil => rfl
  | cons p rest ih =>
    rw [lookup_cons'] at h
    by_cases hpt : t = p.1
    · simp [hpt] at h
    · rw [if_neg hpt] at h
      by_cases hpk : p.1 = k
      · simp only [ParkDet.eraseAssoc, if_pos hpk]
        exact ih h
      · simp only [ParkDet.eraseAssoc, if_neg hpk]
        rw [lookup_cons', if_neg hpt]
        exact ih h

/-- A key absent from an association list stays absent after `updateAssoc`. -/
theorem lookup_none_updateAssoc {α β : Type} [BEq α] [LawfulBEq α] [DecidableEq α] (l : List (α × β)) (t k : α)
    (v : β) (h : l.lookup t = none) (htk : ¬ t = k) :
    (ParkDet.updateAssoc l k v).lookup t = none := by
  induction l with
  | nil => rfl
  | cons p rest ih =>
    rw [lookup_cons'] at h
    by_cases hpt : t = p.1
    · simp [hpt] at h
    · rw [if_neg hpt] at h
      by_cases hpk : p.1 = k
      · simp only [ParkDet.updateAssoc, if_pos hpk]
        rw [lookup_cons', if_neg htk]
        exact ih h
      · simp only [ParkDet.updateAssoc, if_neg hpk]
        rw [lookup_cons', if_neg hpt]
        exact ih h

/-- A key absent from an association list stays absent after appending an
entry with a different key. -/
theorem lookup_none_append {α β : Type} [BEq α] [LawfulBEq α] [DecidableEq α] (l : List (α × β)) (t k : α)
    (v : β) (h : l.lookup t = none) (htk : ¬ t = k) :
    ((l ++ [(k, v)]).lookup t) = none := by
  induction l with
  | nil =>
    rw [List.nil_append, lookup_cons', if_neg htk]
    rfl
  | cons p rest ih =>
    rw [lookup_cons'] at h
    by_cases hpt : t = p.1
    · simp [hpt] at h
    · rw [if_neg hpt] at h
      rw [List.cons_append, lookup_cons', if_neg hpt]
      exact ih h

/-- One `check_parking_violation` call never creates a dwell record for a
track that has none, when that track's detection is at or above the 5 km/h
stationarity threshold. -/
theorem yolo_fast_no_record_step (zones : List YoloPark.YZone) (st : YoloPark.YoloState)
    (det : YoloPark.YDetection) (now : ℚ) (tid : Int)
    (h : st.parking_tracker.lookup tid = none)
    (hsp : det.track_id = tid → ¬ det.speed_kmh < 5) :
    ((YoloPark.check_parking_violation zones st det now).1.parking_tracker.lookup tid)
      = none := by
  unfold YoloPark.check_parking_violation
  cases hz : YoloPark.get_zone_for_point zones det.centroid with
  | none => exact lookup_none_eraseAssoc _ _ _ h
  | some zone =>
    cases he : st.parking_tracker.lookup det.track_id with
    | some entry =>
      have hne : ¬ tid = det.track_id := by
        intro hcon
        rw [hcon, he] at h
        cases h
      exact lookup_none_updateAssoc _ _ _ _ h hne
    | none =>
      by_cases hs : det.speed_kmh < 5
      · have hne : ¬ tid = det.track_id := by
          intro hcon
          exact hsp hcon.symm hs
        simp only [if_pos hs]
        exact lookup_none_append _ _ _ _ h hne
      · simp only [if_neg hs]
        exact h

/-- Claim C5, amended, yolo path: across any sequence of frames in which
every detection carrying the given track id moves at or above 5 km/h, no
dwell record for that track is ever created — the dwell timer never starts
for a pass-through vehicle.  (In the `ParkingDetector` path the record is
created regardless of speed; see the counterexample.) -/
theorem C5_yolo_speed_gate :
    ∀ (zones : List YoloPark.YZone) (frames : List (YoloPark.YDetection × ℚ))
      (st : YoloPark.YoloState) (tid : Int),
      st.parking_tracker.lookup tid = none →
      (∀ f ∈ frames, (f : YoloPark.YDetection × ℚ).1.track_id = tid →
        ¬ f.1.speed_kmh < 5) →
      ((YoloPark.runFrames zones st frames).1.parking_tracker.lookup tid) = none := by
  intro zones frames
  induction frames with
  | nil =>
    intro st tid h _
    exact h
  | cons f rest ih =>
    intro st tid h hsp
    obtain ⟨det, t⟩ := f
    simp only [YoloPark.runFrames]
    apply ih
    · exact yolo_fast_no_record_step zones st det t tid h
        (hsp (det, t) (List.mem_cons_self _ _))
    · intro f' hf'
      exact hsp f' (List.mem_cons_of_mem _ hf')

/-- Witness for the amended C5 theorem: a single in-zone frame at 50 km/h
for an untracked vehicle leaves the tracker empty. -/
theorem C5_yolo_speed_gate_witness :
    ((YoloPark.runFrames [YoloPark.c4Zone] YoloPark.YoloState.init
      [(⟨9, (50, 50), 50, none⟩, 0)]).1.parking_tracker.lookup 9) = none :=
  C5_yolo_speed_gate [YoloPark.c4Zone] [(⟨9, (50, 50), 50, none⟩, 0)]
    YoloPark.YoloState.init 9 rfl
    (by
      intro f hf htid
      simp only [List.mem_singleton] at hf
      rw [hf]
      norm_num)

/-- Claim C5 counterexample: `ParkingDetector.process_detections` creates a
dwell record on first zone membership with no speed check at all — a
detection moving at 50 km/h (far above the 5 km/h threshold) starts the
timer, refuting "no dwell record is ever created" for fast vehicles. -/
theorem C5_parkdet_no_speed_gate :
    ¬ ((50 : ℚ) < 5) ∧
    ((ParkDet.process_detections (fun _ => 0)
      (ParkDet.DetectorState.init [("z1", ParkDet.sampleZone)])
      [{ track_id := 1, class_name := "car", bbox := (40, 40, 60, 60),
         centroid := (50, 50), speed_kmh := 50, plate_text := none }]
      0).1.tracked_vehicles.lookup (1, "z1")).isSome = true := by
  constructor
  · norm_num
  · have hz : ParkDet.ParkingZone.contains_centroid ParkDet.sampleZone
        { track_id := 1, class_name := "car", bbox := (40, 40, 60, 60),
          centroid := (50, 50), speed_kmh := 50, plate_text := none } = true := by
      decide
    norm_num [ParkDet.process_detections, ParkDet.stepDetections, ParkDet.stepDetection,
      ParkDet.stepZone, ParkDet.staleCleanup, ParkDet.DetectorState.init,
      ParkDet.sampleZone, hz, List.lookup]

/-- A key found in an association list is still found, with the same value,
after appending. -/
theorem lookup_some_append {α β : Type} [BEq α] [LawfulBEq α] [DecidableEq α] (l l' : List (α × β)) (t : α)
    (v : β) (h : l.lookup t = some v) : ((l ++ l').lookup t) = some v := by
  induction l with
  | nil => cases h
  | cons p rest ih =>
    rw [lookup_cons'] at h
    rw [List.cons_append, lookup_cons']
    by_cases hpt : t = p.1
    · rw [if_pos hpt] at h ⊢
      exact h
    · rw [if_neg hpt] at h ⊢
      exact ih h

/-- `updateAssoc` at a different key does not change a lookup. -/
theorem lookup_updateAssoc_ne {α β : Type} [BEq α] [LawfulBEq α] [DecidableEq α] (l : List (α × β)) (t k : α)
    (v : β) (htk : ¬ t = k) : (ParkDet.updateAssoc l k v).lookup t = l.lookup t := by
  induction l with
  | nil => rfl
  | cons p rest ih =>
    by_cases hpk : p.1 = k
    · simp only [ParkDet.updateAssoc, if_pos hpk]
      rw [lookup_cons', lookup_cons', if_neg htk, hpk, if_neg htk]
      exact ih
    · simp only [ParkDet.updateAssoc, if_neg hpk]
      rw [lookup_cons', lookup_cons']
      by_cases hpt : t = p.1
      · rw [if_pos hpt, if_pos hpt]
      · rw [if_neg hpt, if_neg hpt]
        exact ih

/-- A key whose lookup is `none` matches no entry of the list. -/
theorem lookup_none_forall {α β : Type} [BEq α] [LawfulBEq α] [DecidableEq α] (l : List (α × β)) (t : α)
    (h : l.lookup t = none) : ∀ p ∈ l, ¬ p.1 = t := by
  induction l with
  | nil =>
    intro p hp
    cases hp
  | cons q rest ih =>
    rw [lookup_cons'] at h
    by_cases hqt : t = q.1
    · rw [if_pos hqt] at h
      cases h
    · rw [if_neg hqt] at h
      intro p hp
      rcases List.mem_cons.mp hp with hq | hr
      · rw [hq]
        intro hcon
        exact hqt hcon.symm
      · exact ih h p hr

/-- `stepZone` preserves "no dwell record and an untouched violation" for a
key whose track id is not the processed detection's. -/
theorem stepZone_preserves (sqrtFn : Int → ℚ) (now : ℚ) (det : ParkDet.Detection)
    (zid : String) (zone : ParkDet.ParkingZone) (acc : ParkDet.Acc) (k : Int × String)
    (v : ParkDet.ParkingViolation)
    (hdet : ¬ det.track_id = k.1)
    (h1 : acc.st.tracked_vehicles.lookup k = none)
    (h2 : acc.st.violations.lookup k = some v) :
    ((ParkDet.stepZone sqrtFn now det zid zone acc).st.tracked_vehicles.lookup k = none) ∧
    ((ParkDet.stepZone sqrtFn now det zid zone acc).st.violations.lookup k = some v) := by
  have hkey : ¬ k = (det.track_id, zid) := by
    intro hcon
    apply hdet
    rw [hcon]
  simp only [ParkDet.stepZone]
  split
  · exact ⟨h1, h2⟩
  · split
    · exact ⟨h1, h2⟩
    · split
      · split
        · split
          · split
            · exact ⟨lookup_none_updateAssoc _ _ _ _ h1 hkey,
                lookup_some_append _ _ _ _ h2⟩
            · refine ⟨lookup_none_updateAssoc _ _ _ _ h1 hkey, ?_⟩
              rw [lookup_updateAssoc_ne _ _ _ _ hkey]
              exact h2
          · exact ⟨lookup_none_updateAssoc _ _ _ _ h1 hkey, h2⟩
        · split
          · split
            · exact ⟨lookup_none_updateAssoc _ _ _ _ h1 hkey,
                lookup_some_append _ _ _ _ h2⟩
            · refine ⟨lookup_none_updateAssoc _ _ _ _ h1 hkey, ?_⟩
              rw [lookup_updateAssoc_ne _ _ _ _ hkey]
              exact h2
          · exact ⟨lookup_none_updateAssoc _ _ _ _ h1 hkey, h2⟩
      · exact ⟨lookup_none_append _ _ _ _ h1 hkey, h2⟩

/-- `stepDetection` (one detection against every zone) preserves the C6
invariant. -/
theorem stepDetection_preserves (sqrtFn : Int → ℚ) (now : ℚ) (det : ParkDet.Detection)
    (zones : List (String × ParkDet.ParkingZone)) (acc : ParkDet.Acc) (k : Int × String)
    (v : ParkDet.ParkingViolation)
    (hdet : ¬ det.track_id = k.1)
    (h1 : acc.st.tracked_vehicles.lookup k = none)
    (h2 : acc.st.violations.lookup k = some v) :
    ((ParkDet.stepDetection sqrtFn now det zones acc).st.tracked_vehicles.lookup k = none) ∧
    ((ParkDet.stepDetection sqrtFn now det zones acc).st.violations.lookup k = some v) := by
  induction zones generalizing acc with
  | nil => exact ⟨h1, h2⟩
  | cons z rest ih =>
    obtain ⟨zid, zone⟩ := z
    simp only [ParkDet.stepDetection]
    obtain ⟨g1, g2⟩ := stepZone_preserves sqrtFn now det zid zone acc k v hdet h1 h2
    exact ih _ g1 g2

/-- `stepDetections` preserves the C6 invariant when no processed detection
carries the key's track id. -/
theorem stepDetections_preserves (sqrtFn : Int → ℚ) (now : ℚ)
    (dets : List ParkDet.Detection) (zones : List (String × ParkDet.ParkingZone))
    (acc : ParkDet.Acc) (k : Int × String) (v : ParkDet.ParkingViolation)
    (hdets : ∀ det ∈ dets, ¬ (det : ParkDet.Detection).track_id = k.1)
    (h1 : acc.st.tracked_vehicles.lookup k = none)
    (h2 : acc.st.violations.lookup k = some v) :
    ((ParkDet.stepDetections sqrtFn now dets zones acc).st.tracked_vehicles.lookup k
      = none) ∧
    ((ParkDet.stepDetections sqrtFn now dets zones acc).st.violations.lookup k
      = some v) := by
  induction dets generalizing acc with
  | nil => exact ⟨h1, h2⟩
  | cons det rest ih =>
    simp only [ParkDet.stepDetections]
    split
    · exact ih _ (fun d hd => hdets d (List.mem_cons_of_mem _ hd)) h1 h2
    · obtain ⟨g1, g2⟩ := stepDetection_preserves sqrtFn now det zones acc k v
        (hdets det (List.mem_cons_self _ _)) h1 h2
      exact ih _ (fun d hd => hdets d (List.mem_cons_of_mem _ hd)) g1 g2

/-- `staleCleanup` preserves the C6 invariant when the key appears in none of
the stale entries. -/
theorem staleCleanup_preserves (now : ℚ) (active : List (Int × String))
    (stale : List ((Int × String) × ParkDet.TrackedVehicle)) (st : ParkDet.DetectorState)
    (k : Int × String) (v : ParkDet.ParkingViolation)
    (hstale : ∀ p ∈ stale, ¬ (p : (Int × String) × ParkDet.TrackedVehicle).1 = k)
    (h1 : st.tracked_vehicles.lookup k = none)
    (h2 : st.violations.lookup k = some v) :
    ((ParkDet.staleCleanup now active stale st).tracked_vehicles.lookup k = none) ∧
    ((ParkDet.staleCleanup now active stale st).violations.lookup k = some v) := by
  induction stale generalizing st with
  | nil => exact ⟨h1, h2⟩
  | cons p rest ih =>
    obtain ⟨key, tracked⟩ := p
    have hkey : ¬ key = k := hstale (key, tracked) (List.mem_cons_self _ _)
    have hkey' : ¬ k = key := fun hcon => hkey hcon.symm
    simp only [ParkDet.staleCleanup]
    have hrest : ∀ p ∈ rest, ¬ (p : (Int × String) × ParkDet.TrackedVehicle).1 = k :=
      fun q hq => hstale q (List.mem_cons_of_mem _ hq)
    split
    · exact ih _ hrest h1 h2
    · split
      · exact ih _ hrest h1 h2
      · split
        · apply ih _ hrest
          · exact lookup_none_eraseAssoc _ _ _ h1
          · rw [lookup_updateAssoc_ne _ _ _ _ hkey']
            exact h2
        · apply ih _ hrest
          · exact lookup_none_eraseAssoc _ _ _ h1
          · exact h2

/-- Claim C6, amended: a violation whose status is already "resolved" (and
whose dwell record was removed by stale cleanup) is immutable across any
further sequence of `process_detections` calls as long as its track id does
not re-appear among the processed detections; if the same (track, zone)
becomes a zone member again, the retained map entry is re-targeted and its
`duration_sec` (and on a later stale cleanup `end_time`) are overwritten —
see the counterexample. -/
theorem C6_resolved_immutable_without_reappearance :
    ∀ (f : Int → ℚ) (st : ParkDet.DetectorState) (k : Int × String)
      (v : ParkDet.ParkingViolation) (calls : List (List ParkDet.Detection × ℚ)),
      v.status = "resolved" →
      st.tracked_vehicles.lookup k = none →
      st.violations.lookup k = some v →
      (∀ c ∈ calls, ∀ det ∈ (c : List ParkDet.Detection × ℚ).1, ¬ det.track_id = k.1) →
      (ParkDet.runCalls f st calls).violations.lookup k = some v ∧
      ((ParkDet.runCalls f st calls).violations.lookup k).map
        (fun w => w.status) = some "resolved" := by
  intro f st k v calls hres h1 h2 hcalls
  suffices hmain : (ParkDet.runCalls f st calls).violations.lookup k = some v by
    refine ⟨hmain, ?_⟩
    rw [hmain, Option.map_some']
    rw [hres]
  induction calls generalizing st with
  | nil => exact h2
  | cons c rest ih =>
    obtain ⟨dets, t⟩ := c
    simp only [ParkDet.runCalls]
    have hdets : ∀ det ∈ dets, ¬ (det : ParkDet.Detection).track_id = k.1 :=
      hcalls (dets, t) (List.mem_cons_self _ _)
    obtain ⟨g1, g2⟩ := stepDetections_preserves f t dets st.zones ⟨st, [], []⟩ k v hdets h1 h2
    have hstale : ∀ p ∈ (ParkDet.stepDetections f t dets st.zones
        ⟨st, [], []⟩).st.tracked_vehicles,
        ¬ (p : (Int × String) × ParkDet.TrackedVehicle).1 = k :=
      lookup_none_forall _ _ g1
    obtain ⟨q1, q2⟩ := staleCleanup_preserves t
      (ParkDet.stepDetections f t dets st.zones ⟨st, [], []⟩).active_keys
      (ParkDet.stepDetections f t dets st.zones ⟨st, [], []⟩).st.tracked_vehicles
      (ParkDet.stepDetections f t dets st.zones ⟨st, [], []⟩).st k v hstale g1 g2
    exact ih _ q1 q2 (fun c hc => hcalls c (List.mem_cons_of_mem _ hc))

/-- Witness for the amended C6 theorem: a resolved violation in the map, an
empty tracker, and one further call with no detections leave the record
untouched. -/
theorem C6_resolved_immutable_witness :
    (ParkDet.runCalls (fun _ => 0)
      ⟨[("z1", ParkDet.sampleZone)], [],
       [((1, "z1"),
         { violation_id := "VIO-1", track_id := 1, zone_id := "z1",
           zone_name := "No Parking Zone 1", zone_type := .no_parking, start_time := 0,
           end_time := some 2, duration_sec := 2, license_plate := none, fine_amount := 50,
           status := "resolved" })], 3 / 10, 1⟩
      [([], 20)]).violations.lookup (1, "z1") =
      some
        { violation_id := "VIO-1", track_id := 1, zone_id := "z1",
          zone_name := "No Parking Zone 1", zone_type := .no_parking, start_time := 0,
          end_time := some 2, duration_sec := 2, license_plate := none, fine_amount := 50,
          status := "resolved" } :=
  (C6_resolved_immutable_without_reappearance (fun _ => 0)
    ⟨[("z1", ParkDet.sampleZone)], [],
     [((1, "z1"),
       { violation_id := "VIO-1", track_id := 1, zone_id := "z1",
         zone_name := "No Parking Zone 1", zone_type := .no_parking, start_time := 0,
         end_time := some 2, duration_sec := 2, license_plate := none, fine_amount := 50,
         status := "resolved" })], 3 / 10, 1⟩
    (1, "z1")
    { violation_id := "VIO-1", track_id := 1, zone_id := "z1",
      zone_name := "No Parking Zone 1", zone_type := .no_parking, start_time := 0,
      end_time := some 2, duration_sec := 2, license_plate := none, fine_amount := 50,
      status := "resolved" }
    [([], 20)] rfl rfl rfl
    (by
      intro c hc det hdet
      simp only [List.mem_singleton] at hc
      rw [hc] at hdet
      cases hdet)).1

/-- Claim C6 counterexample: the violations map retains resolved entries, so
after stale cleanup resolves a violation (status "resolved", duration 2 s),
re-processing detections for the same (trackId, zoneId) re-crosses the
threshold and `process_detections` overwrites `duration_sec` of the
already-resolved record (2 → 1) — a resolved Violation is not immutable. -/
theorem C6_resolved_violation_mutated :
    ((ParkDet.c6RunPrefix.violations.lookup (1, "z1")).map
      (fun v => (v.status, v.duration_sec)) = some ("resolved", 2)) ∧
    ((ParkDet.c6Run.violations.lookup (1, "z1")).map
      (fun v => (v.status, v.duration_sec)) = some ("resolved", 1)) := by
  have hz : ParkDet.ParkingZone.contains_centroid ParkDet.sampleZone ParkDet.c6Det = true := by
    decide
  have hact : ParkDet.sampleZone.active = true := rfl
  have hmax : ParkDet.sampleZone.max_duration_sec = 0 := rfl
  have hname : ParkDet.sampleZone.name = "No Parking Zone 1" := rfl
  have htype : ParkDet.sampleZone.zone_type = ParkDet.ZoneType.no_parking := rfl
  have htid : ParkDet.c6Det.track_id = 1 := rfl
  have hcent : ParkDet.c6Det.centroid = (50, 50) := rfl
  have hclass : ParkDet.c6Det.class_name = "car" := rfl
  have e1 : (ParkDet.process_detections (fun _ => 0)
      (ParkDet.DetectorState.init [("z1", ParkDet.sampleZone)]) [ParkDet.c6Det] 0).1 =
      ⟨[("z1", ParkDet.sampleZone)],
       [((1, "z1"), ⟨1, "z1", 0, 0, "car", [(50, 50)]⟩)], [], 3 / 10, 0⟩ := by
    norm_num [ParkDet.process_detections, ParkDet.stepDetections, ParkDet.stepDetection,
      ParkDet.stepZone, ParkDet.staleCleanup, ParkDet.updateAssoc, ParkDet.eraseAssoc,
      ParkDet.DetectorState.init, ParkDet.TrackedVehicle.is_stationary,
      ParkDet.TrackedVehicle.dwell_time, ParkDet.calculate_fine, List.lookup,
      hz, hact, hmax, hname, htype, htid, hcent, hclass]
  have e2 : (ParkDet.process_detections (fun _ => 0)
      (⟨[("z1", ParkDet.sampleZone)],
        [((1, "z1"), ⟨1, "z1", 0, 0, "car", [(50, 50)]⟩)], [], 3 / 10, 0⟩ :
        ParkDet.DetectorState) [ParkDet.c6Det] 2).1 =
      ⟨[("z1", ParkDet.sampleZone)],
       [((1, "z1"), ⟨1, "z1", 0, 2, "car", [(50, 50), (50, 50)]⟩)],
       [((1, "z1"),
         { violation_id := "VIO-" ++ toString (1 : Int), track_id := 1, zone_id := "z1",
           zone_name := "No Parking Zone 1", zone_type := .no_parking, start_time := 0,
           end_time := none, duration_sec := 2, license_plate := none, fine_amount := 50,
           status := "active" })], 3 / 10, 1⟩ := by
    norm_num [ParkDet.process_detections, ParkDet.stepDetections, ParkDet.stepDetection,
      ParkDet.stepZone, ParkDet.staleCleanup, ParkDet.updateAssoc, ParkDet.eraseAssoc,
      ParkDet.DetectorState.init, ParkDet.TrackedVehicle.is_stationary,
      ParkDet.TrackedVehicle.dwell_time, ParkDet.calculate_fine, List.lookup,
      hz, hact, hmax, hname, htype, htid, hcent, hclass]
  have e3 : (ParkDet.process_detections (fun _ => 0)
      (⟨[("z1", ParkDet.sampleZone)],
        [((1, "z1"), ⟨1, "z1", 0, 2, "car", [(50, 50), (50, 50)]⟩)],
        [((1, "z1"),
          { violation_id := "VIO-" ++ toString (1 : Int), track_id := 1, zone_id := "z1",
            zone_name := "No Parking Zone 1", zone_type := .no_parking, start_time := 0,
            end_time := none, duration_sec := 2, license_plate := none, fine_amount := 50,
            status := "active" })], 3 / 10, 1⟩ : ParkDet.DetectorState) [] 5).1 =
      ⟨[("z1", ParkDet.sampleZone)], [],
       [((1, "z1"),
         { violation_id := "VIO-" ++ toString (1 : Int), track_id := 1, zone_id := "z1",
           zone_name := "No Parking Zone 1", zone_type := .no_parking, start_time := 0,
           end_time := some 2, duration_sec := 2, license_plate := none, fine_amount := 50,
           status := "resolved" })], 3 / 10, 1⟩ := by
    norm_num [ParkDet.process_detections, ParkDet.stepDetections, ParkDet.stepDetection,
      ParkDet.stepZone, ParkDet.staleCleanup, ParkDet.updateAssoc, ParkDet.eraseAssoc,
      ParkDet.DetectorState.init, ParkDet.TrackedVehicle.is_stationary,
      ParkDet.TrackedVehicle.dwell_time, ParkDet.calculate_fine, List.lookup,
      hz, hact, hmax, hname, htype, htid, hcent, hclass]
  have e4 : (ParkDet.process_detections (fun _ => 0)
      (⟨[("z1", ParkDet.sampleZone)], [],
        [((1, "z1"),
          { violation_id := "VIO-" ++ toString (1 : Int), track_id := 1, zone_id := "z1",
            zone_name := "No Parking Zone 1", zone_type := .no_parking, start_time := 0,
            end_time := some 2, duration_sec := 2, license_plate := none, fine_amount := 50,
            status := "resolved" })], 3 / 10, 1⟩ : ParkDet.DetectorState)
      [ParkDet.c6Det] 10).1 =
      ⟨[("z1", ParkDet.sampleZone)],
       [((1, "z1"), ⟨1, "z1", 10, 10, "car", [(50, 50)]⟩)],
       [((1, "z1"),
         { violation_id := "VIO-" ++ toString (1 : Int), track_id := 1, zone_id := "z1",
           zone_name := "No Parking Zone 1", zone_type := .no_parking, start_time := 0,
           end_time := some 2, duration_sec := 2, license_plate := none, fine_amount := 50,
           status := "resolved" })], 3 / 10, 1⟩ := by
    norm_num [ParkDet.process_detections, ParkDet.stepDetections, ParkDet.stepDetection,
      ParkDet.stepZone, ParkDet.staleCleanup, ParkDet.updateAssoc, ParkDet.eraseAssoc,
      ParkDet.DetectorState.init, ParkDet.TrackedVehicle.is_stationary,
      ParkDet.TrackedVehicle.dwell_time, ParkDet.calculate_fine, List.lookup,
      hz, hact, hmax, hname, htype, htid, hcent, hclass]
  have e5 : (ParkDet.process_detections (fun _ => 0)
      (⟨[("z1", ParkDet.sampleZone)],
        [((1, "z1"), ⟨1, "z1", 10, 10, "car", [(50, 50)]⟩)],
        [((1, "z1"),
          { violation_id := "VIO-" ++ toString (1 : Int), track_id := 1, zone_id := "z1",
            zone_name := "No Parking Zone 1", zone_type := .no_parking, start_time := 0,
            end_time := some 2, duration_sec := 2, license_plate := none, fine_amount := 50,
            status := "resolved" })], 3 / 10, 1⟩ : ParkDet.DetectorState)
      [ParkDet.c6Det] 11).1 =
      ⟨[("z1", ParkDet.sampleZone)],
       [((1, "z1"), ⟨1, "z1", 10, 11, "car", [(50, 50), (50, 50)]⟩)],
       [((1, "z1"),
         { violation_id := "VIO-" ++ toString (1 : Int), track_id := 1, zone_id := "z1",
           zone_name := "No Parking Zone 1", zone_type := .no_parking, start_time := 0,
           end_time := some 2, duration_sec := 1, license_plate := none, fine_amount := 50,
           status := "resolved" })], 3 / 10, 1⟩ := by
    norm_num [ParkDet.process_detections, ParkDet.stepDetections, ParkDet.stepDetection,
      ParkDet.stepZone, ParkDet.staleCleanup, ParkDet.updateAssoc, ParkDet.eraseAssoc,
      ParkDet.DetectorState.init, ParkDet.TrackedVehicle.is_stationary,
      ParkDet.TrackedVehicle.dwell_time, ParkDet.calculate_fine, List.lookup,
      hz, hact, hmax, hname, htype, htid, hcent, hclass]
  have hpref : ParkDet.c6RunPrefix =
      ⟨[("z1", ParkDet.sampleZone)], [],
       [((1, "z1"),
         { violation_id := "VIO-" ++ toString (1 : Int), track_id := 1, zone_id := "z1",
           zone_name := "No Parking Zone 1", zone_type := .no_parking, start_time := 0,
           end_time := some 2, duration_sec := 2, license_plate := none, fine_amount := 50,
           status := "resolved" })], 3 / 10, 1⟩ := by
    simp only [ParkDet.c6RunPrefix, ParkDet.runCalls, e1, e2, e3]
  have hfull : ParkDet.c6Run =
      ⟨[("z1", ParkDet.sampleZone)],
       [((1, "z1"), ⟨1, "z1", 10, 11, "car", [(50, 50), (50, 50)]⟩)],
       [((1, "z1"),
         { violation_id := "VIO-" ++ toString (1 : Int), track_id := 1, zone_id := "z1",
           zone_name := "No Parking Zone 1", zone_type := .no_parking, start_time := 0,
           end_time := some 2, duration_sec := 1, license_plate := none, fine_amount := 50,
           status := "resolved" })], 3 / 10, 1⟩ := by
    simp only [ParkDet.c6Run, ParkDet.runCalls, e1, e2, e3, e4, e5]
  rw [hpref, hfull]
  constructor <;> norm_num [List.lookup]

/-- Claim C1 counterexample (on the spec-modelled controller): ticking the
initial state through the 30 s green phase enters the yellow transition —
one lane YELLOW and three RED — so with emergency off there is neither
"exactly one lane GREEN" nor "all four lanes RED", refuting the invariant
exactly as stated. -/
theorem C1_lights_counterexample :
    (FourWay.tick FourWay.initState 30).emergency_mode = false ∧
    FourWay.countColor (FourWay.tick FourWay.initState 30) .green = 0 ∧
    FourWay.countColor (FourWay.tick FourWay.initState 30) .yellow = 1 ∧
    FourWay.countColor (FourWay.tick FourWay.initState 30) .red = 3 ∧
    ¬ FourWay.ClaimInv (FourWay.tick FourWay.initState 30) := by
  refine ⟨rfl, by decide, by decide, by decide, ?_⟩
  intro hinv
  rcases hinv.1 rfl with ⟨hg, _⟩ | hr
  · exact absurd hg (by decide)
  · exact absurd hr (by decide)

/-- Claim C1 as amended (on the spec-modelled controller): in every state
reachable by the operations, when emergency mode is off there is one
distinguished lane showing GREEN — or, mid-transition, YELLOW — while the
other three show RED; when emergency mode is on exactly the emergency lane
is GREEN and all others RED.  The invariant holds initially and is preserved
by `update_lane_count`, `tick`, `activate_emergency_mode`,
`deactivate_emergency_mode` and `get_status`. -/
theorem C1_lights_invariant :
    FourWay.Inv FourWay.initState ∧
    (∀ (s : FourWay.FourWayState) (lane : FourWay.Lane) (c : Int),
      FourWay.Inv s → FourWay.Inv (FourWay.update_lane_count s lane c)) ∧
    (∀ (s : FourWay.FourWayState) (e : Int),
      FourWay.Inv s → FourWay.Inv (FourWay.tick s e)) ∧
    (∀ (s : FourWay.FourWayState) (lane : FourWay.Lane) (now : ℚ),
      FourWay.Inv s → FourWay.Inv (FourWay.activate_emergency_mode s lane now).2) ∧
    (∀ (s : FourWay.FourWayState),
      FourWay.Inv s → FourWay.Inv (FourWay.deactivate_emergency_mode s)) ∧
    (∀ (s : FourWay.FourWayState) (e : Int),
      FourWay.Inv s → FourWay.Inv (FourWay.get_status s e)) := by
  have htick : ∀ (s : FourWay.FourWayState) (e : Int),
      FourWay.Inv s → FourWay.Inv (FourWay.tick s e) := by
    intro s e h
    simp only [FourWay.tick]
    split
    · exact h
    · next hemerg =>
      split
      · split
        · show FourWay.Inv _
          unfold FourWay.Inv
          rw [if_neg hemerg]
          exact ⟨FourWay.nextLane s.current_green_lane, Or.inl (if_pos rfl),
            fun l' h' => if_neg h'⟩
        · exact h
      · split
        · show FourWay.Inv _
          unfold FourWay.Inv
          rw [if_neg hemerg]
          exact ⟨s.current_green_lane, Or.inr (if_pos rfl), fun l' h' => if_neg h'⟩
        · exact h
  refine ⟨?_, fun s lane c h => h, htick, ?_, ?_, fun s e h => htick s e h⟩
  · unfold FourWay.Inv
    rw [if_neg (by decide : ¬ FourWay.initState.emergency_mode = true)]
    exact ⟨.north, Or.inl rfl, fun l' h' => if_neg h'⟩
  · intro s lane now h
    unfold FourWay.activate_emergency_mode
    split
    · split
      · exact h
      · unfold FourWay.Inv
        rw [if_pos rfl]
        exact ⟨if_pos rfl, fun l' h' => if_neg h'⟩
    · unfold FourWay.Inv
      rw [if_pos rfl]
      exact ⟨if_pos rfl, fun l' h' => if_neg h'⟩
  · intro s h
    unfold FourWay.deactivate_emergency_mode FourWay.Inv
    rw [if_neg (by simp : ¬ (false = true))]
    exact ⟨s.pre_emergency_lane.getD .north, Or.inl (if_pos rfl), fun l' h' => if_neg h'⟩

/-- Witness for the amended C1 theorem: the invariant holds in the initial
state and, via the preservation conjuncts, after a tick into the yellow
phase, after an emergency activation, and after its deactivation. -/
theorem C1_lights_invariant_witness :
    FourWay.Inv FourWay.initState ∧
    FourWay.Inv (FourWay.tick FourWay.initState 30) ∧
    FourWay.Inv (FourWay.activate_emergency_mode FourWay.initState .east 0).2 ∧
    FourWay.Inv (FourWay.deactivate_emergency_mode
      (FourWay.activate_emergency_mode FourWay.initState .east 0).2) :=
  ⟨C1_lights_invariant.1,
   C1_lights_invariant.2.2.1 FourWay.initState 30 C1_lights_invariant.1,
   C1_lights_invariant.2.2.2.1 FourWay.initState .east 0 C1_lights_invariant.1,
   C1_lights_invariant.2.2.2.2.1 _
     (C1_lights_invariant.2.2.2.1 FourWay.initState .east 0 C1_lights_invariant.1)⟩

/-- Claim C3 (on the spec-modelled controller): a second
`activate_emergency_mode` within the cooldown window of a prior activation
returns the "cooldown" result and is a no-op — the junction state, including
the running emergency start time, is unchanged. -/
theorem C3_emergency_cooldown_noop :
    ∀ (s : FourWay.FourWayState) (lane : FourWay.Lane) (t now : ℚ),
      s.emergency_start_time = some t →
      now - t < FourWay.EMERGENCY_COOLDOWN →
      FourWay.activate_emergency_mode s lane now = (.cooldown, s) ∧
      (FourWay.activate_emergency_mode s lane now).2.emergency_start_time = some t := by
  intro s lane t now hst hcd
  unfold FourWay.activate_emergency_mode
  rw [hst]
  dsimp only
  rw [if_pos hcd]
  exact ⟨rfl, hst⟩

/-- Witness for C3: activate at time 0, re-invoke at time 10 (inside the
30 s window) — the call returns "cooldown" and leaves the state unchanged. -/
theorem C3_emergency_cooldown_noop_witness :
    ((10 : ℚ) - 0 < FourWay.EMERGENCY_COOLDOWN) ∧
    FourWay.activate_emergency_mode
      (FourWay.activate_emergency_mode FourWay.initState .north 0).2 .south 10 =
      (.cooldown, (FourWay.activate_emergency_mode FourWay.initState .north 0).2) :=
  ⟨by norm_num [FourWay.EMERGENCY_COOLDOWN],
   (C3_emergency_cooldown_noop
     (FourWay.activate_emergency_mode FourWay.initState .north 0).2 .south 0 10 rfl
     (by norm_num [FourWay.EMERGENCY_COOLDOWN])).1⟩

/-- The invariant holds initially. -/
theorem sysInv_init (k : ℕ) : FrameState.SysInv k (FrameState.Sys.init k) := by
  refine ⟨?_, ?_, ?_, ?_⟩
  · intro m hm
    cases hm
  · intro _ i
    rfl
  · intro r hr
    cases hr
  · intro r hr
    cases hr

/-- Every step preserves the invariant. -/
theorem sysInv_step (k : ℕ) {s s' : FrameState.Sys k} (hstep : FrameState.Step k s s')
    (hinv : FrameState.SysInv k s) : FrameState.SysInv k s' := by
  obtain ⟨I1, I2, I3, I4⟩ := hinv
  cases hstep with
  | pAcquire h1 h2 =>
    refine ⟨?_, ?_, ?_, ?_⟩
    · intro m hm
      dsimp only at hm ⊢
      injection hm with hm
      subst hm
      refine ⟨rfl, Nat.zero_le _, Nat.le_add_left _ _, ?_⟩
      intro i
      rw [if_neg (Nat.not_lt_zero _), Nat.add_sub_cancel]
      exact I2 h2 i
    · intro hp
      exact Option.noConfusion hp
    · intro r hr
      dsimp only at hr
      have h3 := (I3 r hr).1
      rw [h1] at h3
      exact Option.noConfusion h3
    · intro r hr
      dsimp only at hr ⊢
      exact I4 r hr
  | pWrite m hm hlt =>
    obtain ⟨hLock, hmk, hu, hShape⟩ := I1 m hm
    refine ⟨?_, ?_, ?_, ?_⟩
    · intro m' hm'
      dsimp only at hm' ⊢
      injection hm' with hm'
      subst hm'
      refine ⟨hLock, hlt, hu, ?_⟩
      intro i
      by_cases hi : (i : ℕ) = m
      · rw [if_pos hi, if_pos (by omega)]
      · rw [if_neg hi, hShape i]
        by_cases hlt2 : (i : ℕ) < m
        · rw [if_pos hlt2, if_pos (by omega)]
        · rw [if_neg hlt2, if_neg (by omega)]
    · intro hp
      exact Option.noConfusion hp
    · intro r hr
      dsimp only at hr
      have h3 := (I3 r hr).1
      rw [hLock] at h3
      injection h3 with h3
      exact FrameState.Tid.noConfusion h3
    · intro r hr
      dsimp only at hr ⊢
      exact I4 r hr
  | pRelease hm =>
    obtain ⟨hLock, hkk, hu, hShape⟩ := I1 k hm
    refine ⟨?_, ?_, ?_, ?_⟩
    · intro m hm'
      exact Option.noConfusion hm'
    · intro _ i
      dsimp only
      rw [hShape i, if_pos i.2]
    · intro r hr
      dsimp only at hr
      have h3 := (I3 r hr).1
      rw [hLock] at h3
      injection h3 with h3
      exact FrameState.Tid.noConfusion h3
    · intro r hr
      dsimp only at hr ⊢
      exact I4 r hr
  | rAcquire r h1 h2 =>
    refine ⟨?_, ?_, ?_, ?_⟩
    · intro m hm
      dsimp only at hm
      have h3 := (I1 m hm).1
      rw [h1] at h3
      exact Option.noConfusion h3
    · intro hp i
      dsimp only at hp ⊢
      exact I2 hp i
    · intro q hq
      dsimp only at hq ⊢
      by_cases hqr : q = r
      · rw [if_pos hqr] at hq ⊢
        refine ⟨by rw [hqr], Nat.zero_le _, ?_⟩
        intro x hx
        exact absurd hx (List.not_mem_nil x)
      · rw [if_neg hqr] at hq ⊢
        have h3 := (I3 q hq).1
        rw [h1] at h3
        exact Option.noConfusion h3
    · intro q hq
      dsimp only at hq ⊢
      by_cases hqr : q = r
      · rw [if_pos hqr] at hq
        exact FrameState.RPhase.noConfusion hq
      · rw [if_neg hqr] at hq ⊢
        exact I4 q hq
  | rRead r h1 h2 =>
    obtain ⟨hLock, hlen, hvals⟩ := I3 r h1
    have hppos : s.ppos = none := by
      cases hp : s.ppos with
      | none => rfl
      | some m =>
        have h3 := (I1 m hp).1
        rw [hLock] at h3
        injection h3 with h3
        exact FrameState.Tid.noConfusion h3
    refine ⟨?_, ?_, ?_, ?_⟩
    · intro m hm
      dsimp only at hm
      have h3 := (I1 m hm).1
      rw [hLock] at h3
      injection h3 with h3
      exact FrameState.Tid.noConfusion h3
    · intro hp i
      dsimp only at hp ⊢
      exact I2 hp i
    · intro q hq
      dsimp only at hq ⊢
      by_cases hqr : q = r
      · rw [if_pos hqr] at hq ⊢
        refine ⟨?_, ?_, ?_⟩
        · show s.lock = some (FrameState.Tid.reader q)
          rw [hqr]
          exact hLock
        · show ((s.readers r).regs ++
            [s.shared ⟨(s.readers r).regs.length, h2⟩]).length ≤ k
          rw [List.length_append, List.length_singleton]
          omega
        · show ∀ x ∈ ((s.readers r).regs ++
            [s.shared ⟨(s.readers r).regs.length, h2⟩]), x = s.u
          intro x hx
          rcases List.mem_append.mp hx with hold | hnew
          · exact hvals x hold
          · rw [List.mem_singleton.mp hnew]
            exact I2 hppos _
      · rw [if_neg hqr] at hq ⊢
        have h3 := (I3 q hq).1
        rw [hLock] at h3
        injection h3 with h3
        injection h3 with h3
        exact absurd h3.symm hqr
    · intro q hq
      dsimp only at hq ⊢
      by_cases hqr : q = r
      · rw [if_pos hqr] at hq
        exact FrameState.RPhase.noConfusion hq
      · rw [if_neg hqr] at hq ⊢
        exact I4 q hq
  | rRelease r h1 h2 =>
    obtain ⟨hLock, hlen, hvals⟩ := I3 r h1
    refine ⟨?_, ?_, ?_, ?_⟩
    · intro m hm
      dsimp only at hm
      have h3 := (I1 m hm).1
      rw [hLock] at h3
      injection h3 with h3
      exact FrameState.Tid.noConfusion h3
    · intro hp i
      dsimp only at hp ⊢
      exact I2 hp i
    · intro q hq
      dsimp only at hq
      by_cases hqr : q = r
      · rw [if_pos hqr] at hq
        exact FrameState.RPhase.noConfusion hq
      · rw [if_neg hqr] at hq
        have h3 := (I3 q hq).1
        rw [hLock] at h3
        injection h3 with h3
        injection h3 with h3
        exact absurd h3.symm hqr
    · intro q hq
      dsimp only at hq ⊢
      by_cases hqr : q = r
      · rw [if_pos hqr] at hq ⊢
        exact ⟨h2, s.u, hvals⟩
      · rw [if_neg hqr] at hq ⊢
        exact I4 q hq

/-- The invariant holds in every reachable state. -/
theorem sysInv_reachable (k : ℕ) (s : FrameState.Sys k)
    (hreach : FrameState.Reachable k s) : FrameState.SysInv k s := by
  induction hreach with
  | refl => exact sysInv_init k
  | tail _ hstep ih => exact sysInv_step k hstep ih

/-- C9: under any interleaving of the producer's locked field-by-field update
of the shared frame state with arbitrarily many readers' locked field-by-field
reads, a reader that has finished its read holds a complete snapshot (one
value per shared field) all of whose values come from one single producer
update — never a mix of two updates and never a partial snapshot. -/
theorem C9_no_torn_reads (k : ℕ) (s : FrameState.Sys k)
    (hreach : FrameState.Reachable k s) (r : ℕ)
    (hfin : (s.readers r).phase = .finished) :
    (s.readers r).regs.length = k ∧ ∃ n, ∀ x ∈ (s.readers r).regs, x = n :=
  (sysInv_reachable k s hreach).2.2.2 r hfin

/-- The witness trace is reachable: producer acquires, writes both fields,
releases; reader 0 acquires, reads both fields, releases. -/
theorem c9S8_reachable : FrameState.Reachable 2 FrameState.c9S8 := by
  have t1 : FrameState.Step 2 (FrameState.Sys.init 2) FrameState.c9S1 :=
    FrameState.Step.pAcquire (FrameState.Sys.init 2) rfl rfl
  have t2 : FrameState.Step 2 FrameState.c9S1 FrameState.c9S2 :=
    FrameState.Step.pWrite FrameState.c9S1 0 rfl (by decide)
  have t3 : FrameState.Step 2 FrameState.c9S2 FrameState.c9S3 :=
    FrameState.Step.pWrite FrameState.c9S2 1 rfl (by decide)
  have t4 : FrameState.Step 2 FrameState.c9S3 FrameState.c9S4 :=
    FrameState.Step.pRelease FrameState.c9S3 rfl
  have t5 : FrameState.Step 2 FrameState.c9S4 FrameState.c9S5 :=
    FrameState.Step.rAcquire FrameState.c9S4 0 rfl rfl
  have t6 : FrameState.Step 2 FrameState.c9S5 FrameState.c9S6 :=
    FrameState.Step.rRead FrameState.c9S5 0 rfl (by decide)
  have t7 : FrameState.Step 2 FrameState.c9S6 FrameState.c9S7 :=
    FrameState.Step.rRead FrameState.c9S6 0 rfl (by decide)
  have t8 : FrameState.Step 2 FrameState.c9S7 FrameState.c9S8 :=
    FrameState.Step.rRelease FrameState.c9S7 0 rfl (by decide)
  exact Relation.ReflTransGen.tail (Relation.ReflTransGen.tail
    (Relation.ReflTransGen.tail (Relation.ReflTransGen.tail
      (Relation.ReflTransGen.tail (Relation.ReflTransGen.tail
        (Relation.ReflTransGen.tail (Relation.ReflTransGen.single t1)
          t2) t3) t4) t5) t6) t7) t8

/-- Witness: on the concrete two-field trace where the producer performs one
full update and reader 0 one full read, the theorem applies and the finished
reader holds a length-2 single-update snapshot. -/
theorem C9_no_torn_reads_witness :
    FrameState.Reachable 2 FrameState.c9S8 ∧
    (FrameState.c9S8.readers 0).phase = .finished ∧
    ((FrameState.c9S8.readers 0).regs.length = 2 ∧
      ∃ n, ∀ x ∈ (FrameState.c9S8.readers 0).regs, x = n) :=
  ⟨c9S8_reachable, rfl, C9_no_torn_reads 2 FrameState.c9S8 c9S8_reachable 0 rfl⟩
